import Mathlib

/-!
Verification of the libipld CBOR decoder (src/codec/cbor/decode.rs) and DAG
walker (src/dag.rs) via a shallow embedding.  Byte streams are `List Nat`
(each element an octet), readers are functions `List Nat → Except CborError
(α × List Nat)` returning the parsed value and the unconsumed rest of the
stream.  Machine integers are modelled as `Nat`/`Int` with explicit wrapping
where the source narrows (`as i8` casts); the generic decoder's `i128` is
modelled as `Int`, which is exact because the combination `-1 - magnitude`
never leaves the `i128` range for 64-bit magnitudes (proved below).
-/

namespace Libipld


/-- The error enum `CborError` from decode.rs, extended with the foreign
error kinds that the source's `crate::error::Result` can also carry on the
same paths (`std::str::from_utf8` failure via `?`).  `io` is the
`std::io::Error` case (short read / `read_exact` hitting EOF). -/
inductive CborError where
  | lengthOutOfRange
  | unexpectedCode
  | unknownTag
  | io
  | utf8
deriving DecidableEq, Repr

/-- Errors of the DAG walker (`crate::error::Result` in dag.rs):
a CBOR decode error from reading a block, the `format_err!("Cannot index
into ...")` structural error, the `usize` parse error from
`segment.parse()?`, and a failing store read. -/
inductive DagError where
  | cbor (e : CborError)
  | cannotIndex
  | parseInt
  | storeMissing
deriving DecidableEq, Repr

/-- `read_u8`: `read_exact` of one byte; fails with an io error at EOF. -/
def read_u8 : List Nat → Except CborError (Nat × List Nat)
  | [] => .error .io
  | b :: t => .ok (b, t)

/-- `Read::read_exact` into a buffer of `k` bytes: errors on short read. -/
def read_exact : Nat → List Nat → Except CborError (List Nat × List Nat)
  | 0, s => .ok ([], s)
  | _ + 1, [] => .error .io
  | n + 1, b :: t =>
    match read_exact n t with
    | .ok (bs, r) => .ok (b :: bs, r)
    | .error e => .error e

/-- Big-endian value of a byte list (`byteorder::BigEndian` combine). -/
def beVal (bs : List Nat) : Nat := bs.foldl (fun acc b => acc * 256 + b) 0

/-- `read_u16`: two bytes, big-endian. -/
def read_u16 (s : List Nat) : Except CborError (Nat × List Nat) :=
  match read_exact 2 s with
  | .ok (bs, r) => .ok (beVal bs, r)
  | .error e => .error e

/-- `read_u32`: four bytes, big-endian. -/
def read_u32 (s : List Nat) : Except CborError (Nat × List Nat) :=
  match read_exact 4 s with
  | .ok (bs, r) => .ok (beVal bs, r)
  | .error e => .error e

/-- `read_u64`: eight bytes, big-endian. -/
def read_u64 (s : List Nat) : Except CborError (Nat × List Nat) :=
  match read_exact 8 s with
  | .ok (bs, r) => .ok (beVal bs, r)
  | .error e => .error e

/-- `read_f32`: four bytes; the IEEE-754 payload is kept as its raw 32-bit
big-endian pattern (no claim inspects the numeric float value). -/
def read_f32 (s : List Nat) : Except CborError (Nat × List Nat) :=
  match read_exact 4 s with
  | .ok (bs, r) => .ok (beVal bs, r)
  | .error e => .error e

/-- `read_f64`: eight bytes; raw 64-bit pattern. -/
def read_f64 (s : List Nat) : Except CborError (Nat × List Nat) :=
  match read_exact 8 s with
  | .ok (bs, r) => .ok (beVal bs, r)
  | .error e => .error e

/-- `ReadExt::read_n`: `self.take(len).read_to_end(&mut bytes)`.
`Take::read_to_end` stops at the underlying stream's EOF without error, so
this returns `min(len, remaining)` bytes and never fails: it does NOT check
that `len` bytes were actually present. -/
def read_n (len : Nat) (s : List Nat) : List Nat × List Nat :=
  (s.take len, s.drop len)

/-- `read_bytes`: delegates to `read_n`. -/
def read_bytes (len : Nat) (s : List Nat) : List Nat × List Nat :=
  read_n len s

/-- UTF-8 validity of a byte sequence, as checked by
`std::str::from_utf8` (RFC 3629: no surrogates, no overlong forms,
max U+10FFFF). -/
def utf8Valid : List Nat → Bool
  | [] => true
  | b :: t =>
    if b ≤ 0x7f then utf8Valid t
    else if 0xc2 ≤ b ∧ b ≤ 0xdf then
      match t with
      | c1 :: t' => if 0x80 ≤ c1 ∧ c1 ≤ 0xbf then utf8Valid t' else false
      | _ => false
    else if b = 0xe0 then
      match t with
      | c1 :: c2 :: t' =>
        if (0xa0 ≤ c1 ∧ c1 ≤ 0xbf) ∧ (0x80 ≤ c2 ∧ c2 ≤ 0xbf) then utf8Valid t' else false
      | _ => false
    else if (0xe1 ≤ b ∧ b ≤ 0xec) ∨ b = 0xee ∨ b = 0xef then
      match t with
      | c1 :: c2 :: t' =>
        if (0x80 ≤ c1 ∧ c1 ≤ 0xbf) ∧ (0x80 ≤ c2 ∧ c2 ≤ 0xbf) then utf8Valid t' else false
      | _ => false
    else if b = 0xed then
      match t with
      | c1 :: c2 :: t' =>
        if (0x80 ≤ c1 ∧ c1 ≤ 0x9f) ∧ (0x80 ≤ c2 ∧ c2 ≤ 0xbf) then utf8Valid t' else false
      | _ => false
    else if b = 0xf0 then
      match t with
      | c1 :: c2 :: c3 :: t' =>
        if (0x90 ≤ c1 ∧ c1 ≤ 0xbf) ∧ (0x80 ≤ c2 ∧ c2 ≤ 0xbf) ∧ (0x80 ≤ c3 ∧ c3 ≤ 0xbf)
        then utf8Valid t' else false
      | _ => false
    else if 0xf1 ≤ b ∧ b ≤ 0xf3 then
      match t with
      | c1 :: c2 :: c3 :: t' =>
        if (0x80 ≤ c1 ∧ c1 ≤ 0xbf) ∧ (0x80 ≤ c2 ∧ c2 ≤ 0xbf) ∧ (0x80 ≤ c3 ∧ c3 ≤ 0xbf)
        then utf8Valid t' else false
      | _ => false
    else if b = 0xf4 then
      match t with
      | c1 :: c2 :: c3 :: t' =>
        if (0x80 ≤ c1 ∧ c1 ≤ 0x8f) ∧ (0x80 ≤ c2 ∧ c2 ≤ 0xbf) ∧ (0x80 ≤ c3 ∧ c3 ≤ 0xbf)
        then utf8Valid t' else false
      | _ => false
    else false

/-- `read_str`: `read_n` then `std::str::from_utf8`.  The resulting Rust
`String` is modelled by its UTF-8 byte sequence.  Note the length is NOT
checked against the stream (see `read_n`). -/
def read_str (len : Nat) (s : List Nat) : Except CborError (List Nat × List Nat) :=
  let p := read_n len s
  if utf8Valid p.1 then .ok (p.1, p.2) else .error .utf8

/-- Modelled from the spec: the external CID value type (cid crate), kept
as its raw binary serialization, opaque to this core. -/
structure Cid where
  bytes : List Nat
deriving DecidableEq, Repr

/-- Modelled from the spec: the external CID parser collaborator
(`Cid::try_from(bytes)`).  Its malformed-digest validation is out of scope
for every claim, so it is modelled as accepting the raw bytes. -/
def cidTryFrom (bs : List Nat) : Except CborError Cid := .ok ⟨bs⟩

/-- `usize::max_value()` on the modelled 64-bit host. -/
def usizeMax : Nat := 2 ^ 64 - 1

/-- Rust `String` ordering on map keys: lexicographic on UTF-8 bytes
(`Ord for String` compares the underlying byte slices). -/
def keyLt : List Nat → List Nat → Bool
  | [], [] => false
  | [], _ :: _ => true
  | _ :: _, [] => false
  | a :: as, b :: bs => if a < b then true else if b < a then false else keyLt as bs

/-- `BTreeMap<String, T>` modelled as an association list sorted strictly
by `keyLt`; `insertKV` is `BTreeMap::insert` (replaces the value when the
key is already present). -/
def insertKV (k : List Nat) (v : α) : List (List Nat × α) → List (List Nat × α)
  | [] => [(k, v)]
  | (k', v') :: t =>
    if keyLt k k' then (k, v) :: (k', v') :: t
    else if keyLt k' k then (k', v') :: insertKV k v t
    else (k, v) :: t

/-- `BTreeMap::get`. -/
def lookupKV (k : List Nat) : List (List Nat × α) → Option α
  | [] => none
  | (k', v') :: t => if k = k' then some v' else lookupKV k t

/-- The strict sorted-keys invariant of the `BTreeMap` model. -/
def sortedKeys (m : List (List Nat × α)) : Prop :=
  m.Pairwise (fun a b => keyLt a.1 b.1 = true)

/-- A float payload of the generic value: `0xfa` items carry a 32-bit
pattern (the source widens `f32` to `f64`, an injective IEEE-754 map that
no claim inspects, so the pattern is retained), `0xfb` items a 64-bit one. -/
inductive FloatVal where
  | ofF32 (bits : Nat)
  | ofF64 (bits : Nat)
deriving DecidableEq, Repr

/-- The generic value `Ipld` (crate::ipld), as consumed and produced by
decode.rs and dag.rs: Null, Bool, Integer (i128, modelled as Int), Float,
String (UTF-8 bytes), Bytes, List, Map (sorted assoc list), Link. -/
inductive Ipld where
  | null
  | bool (b : Bool)
  | integer (i : Int)
  | float (f : FloatVal)
  | str (s : List Nat)
  | bytes (b : List Nat)
  | list (l : List Ipld)
  | map (m : List (List Nat × Ipld))
  | link (c : Cid)

/-- `read_link`: after the 0xd8 lead byte, require tag-extension byte 42
and byte-string header 0x58, then read a one-byte length and that many CID
bytes, handing them to the CID parser. -/
def read_link (s : List Nat) : Except CborError (Cid × List Nat) :=
  match read_u8 s with
  | .error e => .error e
  | .ok (tag, s₁) =>
    if tag ≠ 42 then .error .unknownTag
    else
      match read_u8 s₁ with
      | .error e => .error e
      | .ok (ty, s₂) =>
        if ty ≠ 0x58 then .error .unknownTag
        else
          match read_u8 s₂ with
          | .error e => .error e
          | .ok (len, s₃) =>
            let p := read_bytes len s₃
            match cidTryFrom p.1 with
            | .ok c => .ok (c, p.2)
            | .error e => .error e

/-- `bool::read_cbor`. -/
def read_cbor_bool (s : List Nat) : Except CborError (Bool × List Nat) :=
  match read_u8 s with
  | .error e => .error e
  | .ok (b, s₁) =>
    if b = 0xf4 then .ok (false, s₁)
    else if b = 0xf5 then .ok (true, s₁)
    else .error .unexpectedCode

/-- `u8::read_cbor`. -/
def read_cbor_u8 (s : List Nat) : Except CborError (Nat × List Nat) :=
  match read_u8 s with
  | .error e => .error e
  | .ok (major, s₁) =>
    if major ≤ 0x17 then .ok (major, s₁)
    else if major = 0x18 then read_u8 s₁
    else .error .unexpectedCode

/-- `u16::read_cbor`. -/
def read_cbor_u16 (s : List Nat) : Except CborError (Nat × List Nat) :=
  match read_u8 s with
  | .error e => .error e
  | .ok (major, s₁) =>
    if major ≤ 0x17 then .ok (major, s₁)
    else if major = 0x18 then read_u8 s₁
    else if major = 0x19 then read_u16 s₁
    else .error .unexpectedCode

/-- `u32::read_cbor`. -/
def read_cbor_u32 (s : List Nat) : Except CborError (Nat × List Nat) :=
  match read_u8 s with
  | .error e => .error e
  | .ok (major, s₁) =>
    if major ≤ 0x17 then .ok (major, s₁)
    else if major = 0x18 then read_u8 s₁
    else if major = 0x19 then read_u16 s₁
    else if major = 0x1a then read_u32 s₁
    else .error .unexpectedCode

/-- `u64::read_cbor`. -/
def read_cbor_u64 (s : List Nat) : Except CborError (Nat × List Nat) :=
  match read_u8 s with
  | .error e => .error e
  | .ok (major, s₁) =>
    if major ≤ 0x17 then .ok (major, s₁)
    else if major = 0x18 then read_u8 s₁
    else if major = 0x19 then read_u16 s₁
    else if major = 0x1a then read_u32 s₁
    else if major = 0x1b then read_u64 s₁
    else .error .unexpectedCode

/-- The Rust narrowing cast `m as i8` for a `u8` magnitude: wraps at 128. -/
def u8_as_i8 (m : Nat) : Int := if m < 128 then (m : Int) else (m : Int) - 256

/-- The Rust narrowing cast `m as i16` for a `u16` magnitude. -/
def u16_as_i16 (m : Nat) : Int := if m < 2 ^ 15 then (m : Int) else (m : Int) - 2 ^ 16

/-- The Rust narrowing cast `m as i32` for a `u32` magnitude. -/
def u32_as_i32 (m : Nat) : Int := if m < 2 ^ 31 then (m : Int) else (m : Int) - 2 ^ 32

/-- The Rust narrowing cast `m as i64` for a `u64` magnitude. -/
def u64_as_i64 (m : Nat) : Int := if m < 2 ^ 63 then (m : Int) else (m : Int) - 2 ^ 64

/-- `i8::read_cbor`: `0x38 => Ok(-1 - read_u8(r)? as i8)`.  The subtraction
`-1 - x` never overflows `i8` for `x` in range, so `Int` is exact; the
narrowing cast on the magnitude byte is the explicit wrap `u8_as_i8`. -/
def read_cbor_i8 (s : List Nat) : Except CborError (Int × List Nat) :=
  match read_u8 s with
  | .error e => .error e
  | .ok (major, s₁) =>
    if 0x20 ≤ major ∧ major ≤ 0x37 then .ok (-1 - ((major - 0x20 : Nat) : Int), s₁)
    else if major = 0x38 then
      match read_u8 s₁ with
      | .error e => .error e
      | .ok (m, s₂) => .ok (-1 - u8_as_i8 m, s₂)
    else .error .unexpectedCode

/-- `i16::read_cbor`. -/
def read_cbor_i16 (s : List Nat) : Except CborError (Int × List Nat) :=
  match read_u8 s with
  | .error e => .error e
  | .ok (major, s₁) =>
    if 0x20 ≤ major ∧ major ≤ 0x37 then .ok (-1 - ((major - 0x20 : Nat) : Int), s₁)
    else if major = 0x38 then
      match read_u8 s₁ with
      | .error e => .error e
      | .ok (m, s₂) => .ok (-1 - (m : Int), s₂)
    else if major = 0x39 then
      match read_u16 s₁ with
      | .error e => .error e
      | .ok (m, s₂) => .ok (-1 - u16_as_i16 m, s₂)
    else .error .unexpectedCode

/-- `i32::read_cbor`. -/
def read_cbor_i32 (s : List Nat) : Except CborError (Int × List Nat) :=
  match read_u8 s with
  | .error e => .error e
  | .ok (major, s₁) =>
    if 0x20 ≤ major ∧ major ≤ 0x37 then .ok (-1 - ((major - 0x20 : Nat) : Int), s₁)
    else if major = 0x38 then
      match read_u8 s₁ with
      | .error e => .error e
      | .ok (m, s₂) => .ok (-1 - (m : Int), s₂)
    else if major = 0x39 then
      match read_u16 s₁ with
      | .error e => .error e
      | .ok (m, s₂) => .ok (-1 - (m : Int), s₂)
    else if major = 0x3a then
      match read_u32 s₁ with
      | .error e => .error e
      | .ok (m, s₂) => .ok (-1 - u32_as_i32 m, s₂)
    else .error .unexpectedCode

/-- `i64::read_cbor`. -/
def read_cbor_i64 (s : List Nat) : Except CborError (Int × List Nat) :=
  match read_u8 s with
  | .error e => .error e
  | .ok (major, s₁) =>
    if 0x20 ≤ major ∧ major ≤ 0x37 then .ok (-1 - ((major - 0x20 : Nat) : Int), s₁)
    else if major = 0x38 then
      match read_u8 s₁ with
      | .error e => .error e
      | .ok (m, s₂) => .ok (-1 - (m : Int), s₂)
    else if major = 0x39 then
      match read_u16 s₁ with
      | .error e => .error e
      | .ok (m, s₂) => .ok (-1 - (m : Int), s₂)
    else if major = 0x3a then
      match read_u32 s₁ with
      | .error e => .error e
      | .ok (m, s₂) => .ok (-1 - (m : Int), s₂)
    else if major = 0x3b then
      match read_u64 s₁ with
      | .error e => .error e
      | .ok (m, s₂) => .ok (-1 - u64_as_i64 m, s₂)
    else .error .unexpectedCode

/-- `f32::read_cbor` (raw bit pattern, see `read_f32`). -/
def read_cbor_f32 (s : List Nat) : Except CborError (Nat × List Nat) :=
  match read_u8 s with
  | .error e => .error e
  | .ok (major, s₁) =>
    if major = 0xfa then read_f32 s₁
    else .error .unexpectedCode

/-- `f64::read_cbor`: 0xfa reads an f32 and widens it, 0xfb reads an f64. -/
def read_cbor_f64 (s : List Nat) : Except CborError (FloatVal × List Nat) :=
  match read_u8 s with
  | .error e => .error e
  | .ok (major, s₁) =>
    if major = 0xfa then
      match read_f32 s₁ with
      | .error e => .error e
      | .ok (bits, s₂) => .ok (.ofF32 bits, s₂)
    else if major = 0xfb then
      match read_f64 s₁ with
      | .error e => .error e
      | .ok (bits, s₂) => .ok (.ofF64 bits, s₂)
    else .error .unexpectedCode

/-- `String::read_cbor`: major-type-3 header ladder, then `read_str`. -/
def read_cbor_string (s : List Nat) : Except CborError (List Nat × List Nat) :=
  match read_u8 s with
  | .error e => .error e
  | .ok (major, s₁) =>
    if 0x60 ≤ major ∧ major ≤ 0x77 then read_str (major - 0x60) s₁
    else if major = 0x78 then
      match read_u8 s₁ with
      | .error e => .error e
      | .ok (len, s₂) => read_str len s₂
    else if major = 0x79 then
      match read_u16 s₁ with
      | .error e => .error e
      | .ok (len, s₂) => read_str len s₂
    else if major = 0x7a then
      match read_u32 s₁ with
      | .error e => .error e
      | .ok (len, s₂) => read_str len s₂
    else if major = 0x7b then
      match read_u64 s₁ with
      | .error e => .error e
      | .ok (len, s₂) =>
        if len > usizeMax then .error .lengthOutOfRange
        else read_str len s₂
    else .error .unexpectedCode

/-- `Cid::read_cbor`: only the 0xd8 tag byte is accepted, then `read_link`. -/
def read_cbor_cid (s : List Nat) : Except CborError (Cid × List Nat) :=
  match read_u8 s with
  | .error e => .error e
  | .ok (major, s₁) =>
    if major = 0xd8 then read_link s₁
    else .error .unexpectedCode

/-- `Option<T>::read_cbor`: only the two null forms are recognized; a
present value is not supported (the source's TODO). -/
def read_cbor_option (_f : List Nat → Except CborError (α × List Nat))
    (s : List Nat) : Except CborError (Option α × List Nat) :=
  match read_u8 s with
  | .error e => .error e
  | .ok (major, s₁) =>
    if major = 0xf6 then .ok (none, s₁)
    else if major = 0xf7 then .ok (none, s₁)
    else .error .unexpectedCode

/-- `read_list`: `len` items, each decoded by the element reader `f`
(`T::read_cbor`), in order. -/
def read_list (f : List Nat → Except CborError (α × List Nat)) :
    Nat → List Nat → Except CborError (List α × List Nat)
  | 0, s => .ok ([], s)
  | n + 1, s =>
    match f s with
    | .error e => .error e
    | .ok (v, s₁) =>
      match read_list f n s₁ with
      | .error e => .error e
      | .ok (vs, s₂) => .ok (v :: vs, s₂)

/-- `read_map`: starting from an empty `BTreeMap` the source loops `len`
times reading a `String` key then a `T` value and inserting; `acc` is the
map built so far (called with `[]`). -/
def read_map (f : List Nat → Except CborError (α × List Nat)) :
    Nat → List (List Nat × α) → List Nat → Except CborError (List (List Nat × α) × List Nat)
  | 0, acc, s => .ok (acc, s)
  | n + 1, acc, s =>
    match read_cbor_string s with
    | .error e => .error e
    | .ok (k, s₁) =>
      match f s₁ with
      | .error e => .error e
      | .ok (v, s₂) => read_map f n (insertKV k v acc) s₂

/-- `Vec<T>::read_cbor`: major-type-4 header ladder, then `read_list`. -/
def read_cbor_vec (f : List Nat → Except CborError (α × List Nat))
    (s : List Nat) : Except CborError (List α × List Nat) :=
  match read_u8 s with
  | .error e => .error e
  | .ok (major, s₁) =>
    if 0x80 ≤ major ∧ major ≤ 0x97 then read_list f (major - 0x80) s₁
    else if major = 0x98 then
      match read_u8 s₁ with
      | .error e => .error e
      | .ok (len, s₂) => read_list f len s₂
    else if major = 0x99 then
      match read_u16 s₁ with
      | .error e => .error e
      | .ok (len, s₂) => read_list f len s₂
    else if major = 0x9a then
      match read_u32 s₁ with
      | .error e => .error e
      | .ok (len, s₂) => read_list f len s₂
    else if major = 0x9b then
      match read_u64 s₁ with
      | .error e => .error e
      | .ok (len, s₂) =>
        if len > usizeMax then .error .lengthOutOfRange
        else read_list f len s₂
    else .error .unexpectedCode

/-- `BTreeMap<String, T>::read_cbor`: major-type-5 header ladder, then
`read_map` from the empty map. -/
def read_cbor_map (f : List Nat → Except CborError (α × List Nat))
    (s : List Nat) : Except CborError (List (List Nat × α) × List Nat) :=
  match read_u8 s with
  | .error e => .error e
  | .ok (major, s₁) =>
    if 0xa0 ≤ major ∧ major ≤ 0xb7 then read_map f (major - 0xa0) [] s₁
    else if major = 0xb8 then
      match read_u8 s₁ with
      | .error e => .error e
      | .ok (len, s₂) => read_map f len [] s₂
    else if major = 0xb9 then
      match read_u16 s₁ with
      | .error e => .error e
      | .ok (len, s₂) => read_map f len [] s₂
    else if major = 0xba then
      match read_u32 s₁ with
      | .error e => .error e
      | .ok (len, s₂) => read_map f len [] s₂
    else if major = 0xbb then
      match read_u64 s₁ with
      | .error e => .error e
      | .ok (len, s₂) =>
        if len > usizeMax then .error .lengthOutOfRange
        else read_map f len [] s₂
    else .error .unexpectedCode

/-- One dispatch step of `Ipld::read_cbor` after the major byte has been
read: `g` is the reader used for nested container elements (the recursive
call in the source).  The arms mirror the source match, in order. -/
def rci_body (g : List Nat → Except CborError (Ipld × List Nat)) (major : Nat)
    (s₁ : List Nat) : Except CborError (Ipld × List Nat) :=
    -- Major type 0: an unsigned integer
    if major ≤ 0x17 then .ok (.integer major, s₁)
    else if major = 0x18 then
      match read_u8 s₁ with
      | .error e => .error e
      | .ok (m, s₂) => .ok (.integer m, s₂)
    else if major = 0x19 then
      match read_u16 s₁ with
      | .error e => .error e
      | .ok (m, s₂) => .ok (.integer m, s₂)
    else if major = 0x1a then
      match read_u32 s₁ with
      | .error e => .error e
      | .ok (m, s₂) => .ok (.integer m, s₂)
    else if major = 0x1b then
      match read_u64 s₁ with
      | .error e => .error e
      | .ok (m, s₂) => .ok (.integer m, s₂)
    -- Major type 1: a negative integer
    else if 0x20 ≤ major ∧ major ≤ 0x37 then .ok (.integer (-1 - ((major - 0x20 : Nat) : Int)), s₁)
    else if major = 0x38 then
      match read_u8 s₁ with
      | .error e => .error e
      | .ok (m, s₂) => .ok (.integer (-1 - (m : Int)), s₂)
    else if major = 0x39 then
      match read_u16 s₁ with
      | .error e => .error e
      | .ok (m, s₂) => .ok (.integer (-1 - (m : Int)), s₂)
    else if major = 0x3a then
      match read_u32 s₁ with
      | .error e => .error e
      | .ok (m, s₂) => .ok (.integer (-1 - (m : Int)), s₂)
    else if major = 0x3b then
      match read_u64 s₁ with
      | .error e => .error e
      | .ok (m, s₂) => .ok (.integer (-1 - (m : Int)), s₂)
    -- Major type 2: a byte string
    else if 0x40 ≤ major ∧ major ≤ 0x57 then
      let p := read_bytes (major - 0x40) s₁
      .ok (.bytes p.1, p.2)
    else if major = 0x58 then
      match read_u8 s₁ with
      | .error e => .error e
      | .ok (len, s₂) =>
        let p := read_bytes len s₂
        .ok (.bytes p.1, p.2)
    else if major = 0x59 then
      match read_u16 s₁ with
      | .error e => .error e
      | .ok (len, s₂) =>
        let p := read_bytes len s₂
        .ok (.bytes p.1, p.2)
    else if major = 0x5a then
      match read_u32 s₁ with
      | .error e => .error e
      | .ok (len, s₂) =>
        let p := read_bytes len s₂
        .ok (.bytes p.1, p.2)
    else if major = 0x5b then
      match read_u64 s₁ with
      | .error e => .error e
      | .ok (len, s₂) =>
        if len > usizeMax then .error .lengthOutOfRange
        else
          let p := read_bytes len s₂
          .ok (.bytes p.1, p.2)
    -- Major type 3: a text string
    else if 0x60 ≤ major ∧ major ≤ 0x77 then
      match read_str (major - 0x60) s₁ with
      | .error e => .error e
      | .ok (str, s₂) => .ok (.str str, s₂)
    else if major = 0x78 then
      match read_u8 s₁ with
      | .error e => .error e
      | .ok (len, s₂) =>
        match read_str len s₂ with
        | .error e => .error e
        | .ok (str, s₃) => .ok (.str str, s₃)
    else if major = 0x79 then
      match read_u16 s₁ with
      | .error e => .error e
      | .ok (len, s₂) =>
        match read_str len s₂ with
        | .error e => .error e
        | .ok (str, s₃) => .ok (.str str, s₃)
    else if major = 0x7a then
      match read_u32 s₁ with
      | .error e => .error e
      | .ok (len, s₂) =>
        match read_str len s₂ with
        | .error e => .error e
        | .ok (str, s₃) => .ok (.str str, s₃)
    else if major = 0x7b then
      match read_u64 s₁ with
      | .error e => .error e
      | .ok (len, s₂) =>
        if len > usizeMax then .error .lengthOutOfRange
        else
          match read_str len s₂ with
          | .error e => .error e
          | .ok (str, s₃) => .ok (.str str, s₃)
    -- Major type 4: an array of data items
    else if 0x80 ≤ major ∧ major ≤ 0x97 then
      match read_list (g) (major - 0x80) s₁ with
      | .error e => .error e
      | .ok (l, s₂) => .ok (.list l, s₂)
    else if major = 0x98 then
      match read_u8 s₁ with
      | .error e => .error e
      | .ok (len, s₂) =>
        match read_list (g) len s₂ with
        | .error e => .error e
        | .ok (l, s₃) => .ok (.list l, s₃)
    else if major = 0x99 then
      match read_u16 s₁ with
      | .error e => .error e
      | .ok (len, s₂) =>
        match read_list (g) len s₂ with
        | .error e => .error e
        | .ok (l, s₃) => .ok (.list l, s₃)
    else if major = 0x9a then
      match read_u32 s₁ with
      | .error e => .error e
      | .ok (len, s₂) =>
        match read_list (g) len s₂ with
        | .error e => .error e
        | .ok (l, s₃) => .ok (.list l, s₃)
    else if major = 0x9b then
      match read_u64 s₁ with
      | .error e => .error e
      | .ok (len, s₂) =>
        if len > usizeMax then .error .lengthOutOfRange
        else
          match read_list (g) len s₂ with
          | .error e => .error e
          | .ok (l, s₃) => .ok (.list l, s₃)
    -- Major type 5: a map of pairs of data items
    else if 0xa0 ≤ major ∧ major ≤ 0xb7 then
      match read_map (g) (major - 0xa0) [] s₁ with
      | .error e => .error e
      | .ok (m, s₂) => .ok (.map m, s₂)
    else if major = 0xb8 then
      match read_u8 s₁ with
      | .error e => .error e
      | .ok (len, s₂) =>
        match read_map (g) len [] s₂ with
        | .error e => .error e
        | .ok (m, s₃) => .ok (.map m, s₃)
    else if major = 0xb9 then
      match read_u16 s₁ with
      | .error e => .error e
      | .ok (len, s₂) =>
        match read_map (g) len [] s₂ with
        | .error e => .error e
        | .ok (m, s₃) => .ok (.map m, s₃)
    else if major = 0xba then
      match read_u32 s₁ with
      | .error e => .error e
      | .ok (len, s₂) =>
        match read_map (g) len [] s₂ with
        | .error e => .error e
        | .ok (m, s₃) => .ok (.map m, s₃)
    else if major = 0xbb then
      match read_u64 s₁ with
      | .error e => .error e
      | .ok (len, s₂) =>
        if len > usizeMax then .error .lengthOutOfRange
        else
          match read_map (g) len [] s₂ with
          | .error e => .error e
          | .ok (m, s₃) => .ok (.map m, s₃)
    -- Major type 6: optional semantic tagging of other major types
    else if major = 0xd8 then
      match read_link s₁ with
      | .error e => .error e
      | .ok (c, s₂) => .ok (.link c, s₂)
    -- Major type 7: floating-point numbers and other simple data types
    else if major = 0xf4 then .ok (.bool false, s₁)
    else if major = 0xf5 then .ok (.bool true, s₁)
    else if major = 0xf6 then .ok (.null, s₁)
    else if major = 0xf7 then .ok (.null, s₁)
    else if major = 0xfa then
      match read_f32 s₁ with
      | .error e => .error e
      | .ok (bits, s₂) => .ok (.float (.ofF32 bits), s₂)
    else if major = 0xfb then
      match read_f64 s₁ with
      | .error e => .error e
      | .ok (bits, s₂) => .ok (.float (.ofF64 bits), s₂)
    else .error .unexpectedCode

/-- `Ipld::read_cbor`, the generic-value decoder.  The Rust recursion has
no fuel; here `fuel` only bounds the recursion depth for Lean's
termination checker, decreasing by one at each container nesting level.
Every recursive call consumes at least one byte first, so any
`fuel > stream length` yields the untruncated behavior
(`read_cbor_ipld_fuel_irrel` below proves the result is then independent
of `fuel`); `decode_ipld` runs with such a fuel. -/
def read_cbor_ipld : Nat → List Nat → Except CborError (Ipld × List Nat)
  | 0, _ => .error .unexpectedCode
  | fuel + 1, s =>
    match read_u8 s with
    | .error e => .error e
    | .ok (major, s₁) => rci_body (read_cbor_ipld fuel) major s₁

/-- Top-level decode of one generic-value item: run `read_cbor_ipld` with
fuel strictly larger than the stream length, which is always sufficient
(each recursion level first consumes at least one byte). -/
def decode_ipld (s : List Nat) : Except CborError (Ipld × List Nat) :=
  read_cbor_ipld (s.length + 1) s

/-- Modelled from the spec: the Store collaborator is "conceptually, a
mapping from CID to raw bytes"; an association list of blocks. -/
def Store := List (Cid × List Nat)

/-- Store lookup by CID. -/
def storeLookup : Store → Cid → Option (List Nat)
  | [], _ => none
  | (c', bs) :: t, c => if c = c' then some bs else storeLookup t c

/-- Modelled from the spec: `IpldStore::read_ipld` — "read(cid) ->
bytes-or-error; the core decodes bytes returned by read".  A missing block
is a store error; the bytes are decoded as one generic-value item. -/
def read_ipld (st : Store) (c : Cid) : Except DagError Ipld :=
  match storeLookup st c with
  | none => .error .storeMissing
  | some bs =>
    match decode_ipld bs with
    | .ok (v, _) => .ok v
    | .error e => .error (.cbor e)

/-- `segment.parse::<usize>()`: Rust `usize::from_str` on the segment's
bytes — an optional leading ASCII plus sign, then at least one ASCII
decimal digit, no other characters; overflow past `usize::MAX` errors. -/
def parseUsize (seg : List Nat) : Except DagError Nat :=
  let s := match seg with
    | 0x2b :: t => t
    | _ => seg
  if s = [] then .error .parseInt
  else if s.all (fun c => 0x30 ≤ c ∧ c ≤ 0x39) then
    let v := s.foldl (fun acc c => acc * 10 + (c - 0x30)) 0
    if v > usizeMax then .error .parseInt else .ok v
  else .error .parseInt

/-- Modelled from the spec: the `Ipld::get` accessor used by dag.rs with a
`usize` index — §4.2: "If the current value is a List, ... integer index";
element access on the list, `None` when out of range or not a list. -/
def ipldGetIndex (v : Ipld) (i : Nat) : Option Ipld :=
  match v with
  | .list l => l.get? i
  | _ => none

/-- Modelled from the spec: the `Ipld::get` accessor used by dag.rs with a
`&str` key — §4.2: "If the current value is a Map, look up the segment as
a key"; `None` when the key is absent or the value is not a map. -/
def ipldGetKey (v : Ipld) (k : List Nat) : Option Ipld :=
  match v with
  | .map m => lookupKV k m
  | _ => none

/-- The segment loop of `Dag::get`: for each segment index into the
current value (List: parse the segment as `usize`, propagating the parse
error; Map: key lookup; anything else: the "Cannot index into" error).
`None` from the accessor returns `Ok(None)`; a `Link` child is followed by
fetching the linked block from the store before continuing. -/
def dag_get_loop (st : Store) : Ipld → List (List Nat) → Except DagError (Option Ipld)
  | ipld, [] => .ok (some ipld)
  | ipld, seg :: rest =>
    match ipld with
    | .list _ =>
      match parseUsize seg with
      | .error e => .error e
      | .ok i =>
        match ipldGetIndex ipld i with
        | some (.link c) =>
          match read_ipld st c with
          | .error e => .error e
          | .ok root => dag_get_loop st root rest
        | some next => dag_get_loop st next rest
        | none => .ok none
    | .map _ =>
      match ipldGetKey ipld seg with
      | some (.link c) =>
        match read_ipld st c with
        | .error e => .error e
        | .ok root => dag_get_loop st root rest
      | some next => dag_get_loop st next rest
      | none => .ok none
    | _ => .error .cannotIndex

/-- `Dag::get`: read and decode the root block, then resolve the path
segments (already split by the external path parser). -/
def dag_get (st : Store) (c : Cid) (path : List (List Nat)) :
    Except DagError (Option Ipld) :=
  match read_ipld st c with
  | .error e => .error e
  | .ok root => dag_get_loop st root path

/-- Big-endian byte encoding of `n` in `k` bytes. -/
def beBytes : Nat → Nat → List Nat
  | 0, _ => []
  | k + 1, n => beBytes k (n / 256) ++ [n % 256]

/-- Specification-side helper: the sequence of (key, value) pairs decoded
by the `read_map` loop, in stream order, without the `BTreeMap` insertion.
Used to state the duplicate-key (last write wins) behavior. -/
def read_entries {α : Type} (g : List Nat → Except CborError (α × List Nat)) :
    Nat → List Nat → Except CborError (List (List Nat × α) × List Nat)
  | 0, s => .ok ([], s)
  | n + 1, s =>
    match read_cbor_string s with
    | .error e => .error e
    | .ok (k, s₁) =>
      match g s₁ with
      | .error e => .error e
      | .ok (v, s₂) =>
        match read_entries g n s₂ with
        | .error e => .error e
        | .ok (es, r) => .ok ((k, v) :: es, r)

/-- One encoding of the value/length `n` under a major-type base byte
(`base` = major type shifted left 5): tier 0 is the immediate low-5-bits
form (`n ≤ 23`), tier 1 the 1-byte form (minor 24), tier 2 the 2-byte
big-endian form (minor 25), tier 3 the 4-byte form (minor 26), tier 4 the
8-byte form (minor 27). -/
def ladderEnc (base : Nat) : Nat → Nat → List Nat
  | 0, n => [base + n]
  | 1, n => [base + 24, n]
  | 2, n => (base + 25) :: beBytes 2 n
  | 3, n => (base + 26) :: beBytes 4 n
  | 4, n => (base + 27) :: beBytes 8 n
  | _ + 5, _ => []

/-- `n` is representable in the given ladder tier. -/
def tierFits : Nat → Nat → Prop
  | 0, n => n ≤ 23
  | 1, n => n < 2 ^ 8
  | 2, n => n < 2 ^ 16
  | 3, n => n < 2 ^ 32
  | 4, n => n < 2 ^ 64
  | _ + 5, _ => False

/-- The CBOR encoding of `{"a": 3}` (the first block of the C3 scenario). -/
def c3_block1 : List Nat := [0xa1, 0x61, 0x61, 0x03]

/-- The CBOR encoding of `{"root": [{"child": <link to first block>}]}`:
map header, key "root", 1-element array, map header, key "child", then the
link tag 0xd8, 42, byte-string header 0x58, length 1, CID byte 0x01. -/
def c3_block2 : List Nat :=
  [0xa1, 0x64, 0x72, 0x6f, 0x6f, 0x74, 0x81, 0xa1, 0x65, 0x63, 0x68, 0x69, 0x6c, 0x64,
   0xd8, 0x2a, 0x58, 0x01, 0x01]

/-- The two-block store of the C3 scenario. -/
def c3_store : Store := [(⟨[1]⟩, c3_block1), (⟨[2]⟩, c3_block2)]

/-! ## Lemmas and claim theorems -/

theorem length_beBytes (k n : Nat) : (beBytes k n).length = k := by
  induction k generalizing n with
  | zero => rfl
  | succ k ih => simp [beBytes, ih]

theorem beVal_append (xs : List Nat) (b : Nat) :
    beVal (xs ++ [b]) = beVal xs * 256 + b := by
  simp [beVal, List.foldl_append]

theorem beVal_beBytes (k n : Nat) (h : n < 256 ^ k) : beVal (beBytes k n) = n := by
  induction k generalizing n with
  | zero => interval_cases n; rfl
  | succ k ih =>
    rw [beBytes, beVal_append, ih]
    · omega
    · have : 256 ^ (k + 1) = 256 ^ k * 256 := by ring
      omega

theorem read_exact_spec {k : Nat} {s bs r : List Nat}
    (h : read_exact k s = .ok (bs, r)) : bs.length = k ∧ s = bs ++ r := by
  induction k generalizing s bs r with
  | zero =>
    simp [read_exact] at h
    simp [h.1, h.2]
  | succ k ih =>
    match s with
    | [] => simp [read_exact] at h
    | b :: t =>
      rw [read_exact] at h
      cases he : read_exact k t with
      | error e => rw [he] at h; simp at h
      | ok p =>
        rw [he] at h
        obtain ⟨bs', r'⟩ := p
        simp at h
        obtain ⟨h1, h2⟩ := h
        obtain ⟨hl, hs⟩ := ih he
        subst h1 h2
        simp [hl, hs]

theorem read_exact_append {k : Nat} {xs rest : List Nat} (h : xs.length = k) :
    read_exact k (xs ++ rest) = .ok (xs, rest) := by
  induction xs generalizing k with
  | nil => subst h; rfl
  | cons b t ih =>
    subst h
    simp only [List.length_cons]
    rw [List.cons_append, read_exact, ih rfl]

theorem read_u16_beBytes {n : Nat} (rest : List Nat) (h : n < 2 ^ 16) :
    read_u16 (beBytes 2 n ++ rest) = .ok (n, rest) := by
  have hb : n < 256 ^ 2 := by omega
  rw [read_u16, read_exact_append (length_beBytes 2 n)]
  simp [beVal_beBytes 2 n hb]

theorem read_u32_beBytes {n : Nat} (rest : List Nat) (h : n < 2 ^ 32) :
    read_u32 (beBytes 4 n ++ rest) = .ok (n, rest) := by
  have hb : n < 256 ^ 4 := by omega
  rw [read_u32, read_exact_append (length_beBytes 4 n)]
  simp [beVal_beBytes 4 n hb]

theorem read_u64_beBytes {n : Nat} (rest : List Nat) (h : n < 2 ^ 64) :
    read_u64 (beBytes 8 n ++ rest) = .ok (n, rest) := by
  have hb : n < 256 ^ 8 := by norm_num at h ⊢; omega
  rw [read_u64, read_exact_append (length_beBytes 8 n)]
  simp [beVal_beBytes 8 n hb]

theorem len_read_u8 {s r : List Nat} {b : Nat} (h : read_u8 s = .ok (b, r)) :
    r.length + 1 = s.length := by
  match s with
  | [] => simp [read_u8] at h
  | x :: t => simp [read_u8] at h; simp [h.2]

theorem len_read_u16 {s r : List Nat} {m : Nat} (h : read_u16 s = .ok (m, r)) :
    r.length + 2 = s.length := by
  rw [read_u16] at h
  cases he : read_exact 2 s with
  | error e => rw [he] at h; simp at h
  | ok p =>
    obtain ⟨bs, r2⟩ := p
    rw [he] at h
    simp at h
    obtain ⟨hm, hr⟩ := h
    obtain ⟨hl, hs⟩ := read_exact_spec he
    subst hr hs
    simp [hl]
    omega

theorem len_read_u32 {s r : List Nat} {m : Nat} (h : read_u32 s = .ok (m, r)) :
    r.length + 4 = s.length := by
  rw [read_u32] at h
  cases he : read_exact 4 s with
  | error e => rw [he] at h; simp at h
  | ok p =>
    obtain ⟨bs, r2⟩ := p
    rw [he] at h
    simp at h
    obtain ⟨hm, hr⟩ := h
    obtain ⟨hl, hs⟩ := read_exact_spec he
    subst hr hs
    simp [hl]
    omega

theorem len_read_u64 {s r : List Nat} {m : Nat} (h : read_u64 s = .ok (m, r)) :
    r.length + 8 = s.length := by
  rw [read_u64] at h
  cases he : read_exact 8 s with
  | error e => rw [he] at h; simp at h
  | ok p =>
    obtain ⟨bs, r2⟩ := p
    rw [he] at h
    simp at h
    obtain ⟨hm, hr⟩ := h
    obtain ⟨hl, hs⟩ := read_exact_spec he
    subst hr hs
    simp [hl]
    omega

theorem len_read_f32 {s r : List Nat} {m : Nat} (h : read_f32 s = .ok (m, r)) :
    r.length + 4 = s.length := by
  rw [read_f32] at h
  cases he : read_exact 4 s with
  | error e => rw [he] at h; simp at h
  | ok p =>
    obtain ⟨bs, r2⟩ := p
    rw [he] at h
    simp at h
    obtain ⟨hm, hr⟩ := h
    obtain ⟨hl, hs⟩ := read_exact_spec he
    subst hr hs
    simp [hl]
    omega

theorem len_read_f64 {s r : List Nat} {m : Nat} (h : read_f64 s = .ok (m, r)) :
    r.length + 8 = s.length := by
  rw [read_f64] at h
  cases he : read_exact 8 s with
  | error e => rw [he] at h; simp at h
  | ok p =>
    obtain ⟨bs, r2⟩ := p
    rw [he] at h
    simp at h
    obtain ⟨hm, hr⟩ := h
    obtain ⟨hl, hs⟩ := read_exact_spec he
    subst hr hs
    simp [hl]
    omega

theorem len_read_str {len : Nat} {s t r : List Nat} (h : read_str len s = .ok (t, r)) :
    r.length ≤ s.length := by
  rw [read_str] at h
  split at h
  · simp [read_n] at h
    simp [← h.2]
  · simp at h

theorem len_read_link {s r : List Nat} {c : Cid} (h : read_link s = .ok (c, r)) :
    r.length ≤ s.length := by
  rw [read_link] at h
  split at h
  · simp at h
  · next tag s₁ heq1 =>
    have e1 := len_read_u8 heq1
    split at h
    · simp at h
    · split at h
      · simp at h
      · next ty s₂ heq2 =>
        have e2 := len_read_u8 heq2
        split at h
        · simp at h
        · split at h
          · simp at h
          · next len s₃ heq3 =>
            have e3 := len_read_u8 heq3
            simp [read_bytes, read_n, cidTryFrom] at h
            have : r.length = s₃.length - len := by rw [← h.2]; simp
            omega

theorem len_read_cbor_string {s k r : List Nat} (h : read_cbor_string s = .ok (k, r)) :
    r.length < s.length := by
  rw [read_cbor_string] at h
  split at h
  · simp at h
  · next major s₁ heq1 =>
    have e1 := len_read_u8 heq1
    split_ifs at h
    · have := len_read_str h
      omega
    · split at h
      · simp at h
      · next len s₂ heq2 =>
        have e2 := len_read_u8 heq2
        have := len_read_str h
        omega
    · split at h
      · simp at h
      · next len s₂ heq2 =>
        have e2 := len_read_u16 heq2
        have := len_read_str h
        omega
    · split at h
      · simp at h
      · next len s₂ heq2 =>
        have e2 := len_read_u32 heq2
        have := len_read_str h
        omega
    · split at h
      · simp at h
      · next len s₂ heq2 =>
        have e2 := len_read_u64 heq2
        split at h
        · simp at h
        · have := len_read_str h
          omega

theorem len_read_list {α : Type} {g : List Nat → Except CborError (α × List Nat)}
    (hg : ∀ s v r, g s = .ok (v, r) → r.length < s.length) :
    ∀ (n : Nat) (s : List Nat) (l : List α) (r : List Nat),
      read_list g n s = .ok (l, r) → r.length ≤ s.length := by
  intro n
  induction n with
  | zero =>
    intro s l r h
    simp [read_list] at h
    simp [← h.2]
  | succ n ih =>
    intro s l r h
    rw [read_list] at h
    split at h
    · simp at h
    · next v s₁ heq =>
      have e1 := hg _ _ _ heq
      split at h
      · simp at h
      · next vs s₂ heq2 =>
        have e2 := ih _ _ _ heq2
        simp at h
        rw [← h.2]
        omega

theorem len_read_map {α : Type} {g : List Nat → Except CborError (α × List Nat)}
    (hg : ∀ s v r, g s = .ok (v, r) → r.length < s.length) :
    ∀ (n : Nat) (acc : List (List Nat × α)) (s : List Nat) (m : List (List Nat × α)) (r : List Nat),
      read_map g n acc s = .ok (m, r) → r.length ≤ s.length := by
  intro n
  induction n with
  | zero =>
    intro acc s m r h
    simp [read_map] at h
    simp [← h.2]
  | succ n ih =>
    intro acc s m r h
    rw [read_map] at h
    split at h
    · simp at h
    · next k s₁ heq =>
      have e1 := len_read_cbor_string heq
      split at h
      · simp at h
      · next v s₂ heq2 =>
        have e2 := hg _ _ _ heq2
        have e3 := ih _ _ _ _ h
        omega

set_option maxHeartbeats 4000000 in
theorem len_rci_body {g : List Nat → Except CborError (Ipld × List Nat)}
    (hg : ∀ s v r, g s = .ok (v, r) → r.length < s.length)
    {b : Nat} {s₁ : List Nat} {v : Ipld} {r : List Nat}
    (h : rci_body g b s₁ = .ok (v, r)) : r.length ≤ s₁.length := by
  rw [rci_body] at h
  by_cases c1 : b ≤ 23
  · rw [if_pos c1] at h
    simp at h
    simp [← h.2]
  rw [if_neg c1] at h
  by_cases c2 : b = 24
  · rw [if_pos c2] at h
    split at h
    · simp at h
    · next m s₂ heq =>
      have e2 := len_read_u8 heq
      simp at h
      rw [← h.2]
      omega
  rw [if_neg c2] at h
  by_cases c3 : b = 25
  · rw [if_pos c3] at h
    split at h
    · simp at h
    · next m s₂ heq =>
      have e2 := len_read_u16 heq
      simp at h
      rw [← h.2]
      omega
  rw [if_neg c3] at h
  by_cases c4 : b = 26
  · rw [if_pos c4] at h
    split at h
    · simp at h
    · next m s₂ heq =>
      have e2 := len_read_u32 heq
      simp at h
      rw [← h.2]
      omega
  rw [if_neg c4] at h
  by_cases c5 : b = 27
  · rw [if_pos c5] at h
    split at h
    · simp at h
    · next m s₂ heq =>
      have e2 := len_read_u64 heq
      simp at h
      rw [← h.2]
      omega
  rw [if_neg c5] at h
  by_cases c6 : 32 ≤ b ∧ b ≤ 55
  · rw [if_pos c6] at h
    simp at h
    simp [← h.2]
  rw [if_neg c6] at h
  by_cases c7 : b = 56
  · rw [if_pos c7] at h
    split at h
    · simp at h
    · next m s₂ heq =>
      have e2 := len_read_u8 heq
      simp at h
      rw [← h.2]
      omega
  rw [if_neg c7] at h
  by_cases c8 : b = 57
  · rw [if_pos c8] at h
    split at h
    · simp at h
    · next m s₂ heq =>
      have e2 := len_read_u16 heq
      simp at h
      rw [← h.2]
      omega
  rw [if_neg c8] at h
  by_cases c9 : b = 58
  · rw [if_pos c9] at h
    split at h
    · simp at h
    · next m s₂ heq =>
      have e2 := len_read_u32 heq
      simp at h
      rw [← h.2]
      omega
  rw [if_neg c9] at h
  by_cases c10 : b = 59
  · rw [if_pos c10] at h
    split at h
    · simp at h
    · next m s₂ heq =>
      have e2 := len_read_u64 heq
      simp at h
      rw [← h.2]
      omega
  rw [if_neg c10] at h
  by_cases c11 : 64 ≤ b ∧ b ≤ 87
  · rw [if_pos c11] at h
    simp [read_bytes, read_n] at h
    rw [← h.2]
    simp only [List.length_drop]
    omega
  rw [if_neg c11] at h
  by_cases c12 : b = 88
  · rw [if_pos c12] at h
    split at h
    · simp at h
    · next len s₂ heq =>
      have e2 := len_read_u8 heq
      simp [read_bytes, read_n] at h
      rw [← h.2]
      simp only [List.length_drop]
      omega
  rw [if_neg c12] at h
  by_cases c13 : b = 89
  · rw [if_pos c13] at h
    split at h
    · simp at h
    · next len s₂ heq =>
      have e2 := len_read_u16 heq
      simp [read_bytes, read_n] at h
      rw [← h.2]
      simp only [List.length_drop]
      omega
  rw [if_neg c13] at h
  by_cases c14 : b = 90
  · rw [if_pos c14] at h
    split at h
    · simp at h
    · next len s₂ heq =>
      have e2 := len_read_u32 heq
      simp [read_bytes, read_n] at h
      rw [← h.2]
      simp only [List.length_drop]
      omega
  rw [if_neg c14] at h
  by_cases c15 : b = 91
  · rw [if_pos c15] at h
    split at h
    · simp at h
    · next len s₂ heq =>
      have e2 := len_read_u64 heq
      split at h
      · simp at h
      · simp [read_bytes, read_n] at h
        rw [← h.2]
        simp only [List.length_drop]
        omega
  rw [if_neg c15] at h
  by_cases c16 : 96 ≤ b ∧ b ≤ 119
  · rw [if_pos c16] at h
    split at h
    · simp at h
    · next str s₂ heq =>
      have e2 := len_read_str heq
      simp at h
      rw [← h.2]
      omega
  rw [if_neg c16] at h
  by_cases c17 : b = 120
  · rw [if_pos c17] at h
    split at h
    · simp at h
    · next len s₂ heq =>
      have e2 := len_read_u8 heq
      split at h
      · simp at h
      · next str s₃ heq2 =>
        have e3 := len_read_str heq2
        simp at h
        rw [← h.2]
        omega
  rw [if_neg c17] at h
  by_cases c18 : b = 121
  · rw [if_pos c18] at h
    split at h
    · simp at h
    · next len s₂ heq =>
      have e2 := len_read_u16 heq
      split at h
      · simp at h
      · next str s₃ heq2 =>
        have e3 := len_read_str heq2
        simp at h
        rw [← h.2]
        omega
  rw [if_neg c18] at h
  by_cases c19 : b = 122
  · rw [if_pos c19] at h
    split at h
    · simp at h
    · next len s₂ heq =>
      have e2 := len_read_u32 heq
      split at h
      · simp at h
      · next str s₃ heq2 =>
        have e3 := len_read_str heq2
        simp at h
        rw [← h.2]
        omega
  rw [if_neg c19] at h
  by_cases c20 : b = 123
  · rw [if_pos c20] at h
    split at h
    · simp at h
    · next len s₂ heq =>
      have e2 := len_read_u64 heq
      split at h
      · simp at h
      · split at h
        · simp at h
        · next str s₃ heq2 =>
          have e3 := len_read_str heq2
          simp at h
          rw [← h.2]
          omega
  rw [if_neg c20] at h
  by_cases c21 : 128 ≤ b ∧ b ≤ 151
  · rw [if_pos c21] at h
    split at h
    · simp at h
    · next l s₂ heq =>
      have e2 := len_read_list hg _ _ _ _ heq
      simp at h
      rw [← h.2]
      omega
  rw [if_neg c21] at h
  by_cases c22 : b = 152
  · rw [if_pos c22] at h
    split at h
    · simp at h
    · next len s₂ heq =>
      have e2 := len_read_u8 heq
      split at h
      · simp at h
      · next l s₃ heq2 =>
        have e3 := len_read_list hg _ _ _ _ heq2
        simp at h
        rw [← h.2]
        omega
  rw [if_neg c22] at h
  by_cases c23 : b = 153
  · rw [if_pos c23] at h
    split at h
    · simp at h
    · next len s₂ heq =>
      have e2 := len_read_u16 heq
      split at h
      · simp at h
      · next l s₃ heq2 =>
        have e3 := len_read_list hg _ _ _ _ heq2
        simp at h
        rw [← h.2]
        omega
  rw [if_neg c23] at h
  by_cases c24 : b = 154
  · rw [if_pos c24] at h
    split at h
    · simp at h
    · next len s₂ heq =>
      have e2 := len_read_u32 heq
      split at h
      · simp at h
      · next l s₃ heq2 =>
        have e3 := len_read_list hg _ _ _ _ heq2
        simp at h
        rw [← h.2]
        omega
  rw [if_neg c24] at h
  by_cases c25 : b = 155
  · rw [if_pos c25] at h
    split at h
    · simp at h
    · next len s₂ heq =>
      have e2 := len_read_u64 heq
      split at h
      · simp at h
      · split at h
        · simp at h
        · next l s₃ heq2 =>
          have e3 := len_read_list hg _ _ _ _ heq2
          simp at h
          rw [← h.2]
          omega
  rw [if_neg c25] at h
  by_cases c26 : 160 ≤ b ∧ b ≤ 183
  · rw [if_pos c26] at h
    split at h
    · simp at h
    · next l s₂ heq =>
      have e2 := len_read_map hg _ _ _ _ _ heq
      simp at h
      rw [← h.2]
      omega
  rw [if_neg c26] at h
  by_cases c27 : b = 184
  · rw [if_pos c27] at h
    split at h
    · simp at h
    · next len s₂ heq =>
      have e2 := len_read_u8 heq
      split at h
      · simp at h
      · next l s₃ heq2 =>
        have e3 := len_read_map hg _ _ _ _ _ heq2
        simp at h
        rw [← h.2]
        omega
  rw [if_neg c27] at h
  by_cases c28 : b = 185
  · rw [if_pos c28] at h
    split at h
    · simp at h
    · next len s₂ heq =>
      have e2 := len_read_u16 heq
      split at h
      · simp at h
      · next l s₃ heq2 =>
        have e3 := len_read_map hg _ _ _ _ _ heq2
        simp at h
        rw [← h.2]
        omega
  rw [if_neg c28] at h
  by_cases c29 : b = 186
  · rw [if_pos c29] at h
    split at h
    · simp at h
    · next len s₂ heq =>
      have e2 := len_read_u32 heq
      split at h
      · simp at h
      · next l s₃ heq2 =>
        have e3 := len_read_map hg _ _ _ _ _ heq2
        simp at h
        rw [← h.2]
        omega
  rw [if_neg c29] at h
  by_cases c30 : b = 187
  · rw [if_pos c30] at h
    split at h
    · simp at h
    · next len s₂ heq =>
      have e2 := len_read_u64 heq
      split at h
      · simp at h
      · split at h
        · simp at h
        · next l s₃ heq2 =>
          have e3 := len_read_map hg _ _ _ _ _ heq2
          simp at h
          rw [← h.2]
          omega
  rw [if_neg c30] at h
  by_cases c31 : b = 216
  · rw [if_pos c31] at h
    split at h
    · simp at h
    · next c s₂ heq =>
      have e2 := len_read_link heq
      simp at h
      rw [← h.2]
      omega
  rw [if_neg c31] at h
  by_cases c32 : b = 244
  · rw [if_pos c32] at h
    simp at h
    simp [← h.2]
  rw [if_neg c32] at h
  by_cases c33 : b = 245
  · rw [if_pos c33] at h
    simp at h
    simp [← h.2]
  rw [if_neg c33] at h
  by_cases c34 : b = 246
  · rw [if_pos c34] at h
    simp at h
    simp [← h.2]
  rw [if_neg c34] at h
  by_cases c35 : b = 247
  · rw [if_pos c35] at h
    simp at h
    simp [← h.2]
  rw [if_neg c35] at h
  by_cases c36 : b = 250
  · rw [if_pos c36] at h
    split at h
    · simp at h
    · next m s₂ heq =>
      have e2 := len_read_f32 heq
      simp at h
      rw [← h.2]
      omega
  rw [if_neg c36] at h
  by_cases c37 : b = 251
  · rw [if_pos c37] at h
    split at h
    · simp at h
    · next m s₂ heq =>
      have e2 := len_read_f64 heq
      simp at h
      rw [← h.2]
      omega
  rw [if_neg c37] at h
  simp at h

theorem len_read_cbor_ipld :
    ∀ (fuel : Nat) (s : List Nat) (v : Ipld) (r : List Nat),
      read_cbor_ipld fuel s = .ok (v, r) → r.length < s.length := by
  intro fuel
  induction fuel with
  | zero => intro s v r h; simp [read_cbor_ipld] at h
  | succ fuel ih =>
    intro s v r h
    rw [read_cbor_ipld] at h
    split at h
    · simp at h
    · next major s₁ heq =>
      have e1 := len_read_u8 heq
      have e2 := len_rci_body ih h
      omega

theorem rci_body_range0 (g : List Nat → Except CborError (Ipld × List Nat)) (b : Nat) (s₁ : List Nat)
    (h1 : b ≤ 23) :
    rci_body g b s₁ =
      .ok (.integer b, s₁) := by
  rw [rci_body]

  rw [if_pos (by omega)]

theorem rci_body_at24 (g : List Nat → Except CborError (Ipld × List Nat)) (s₁ : List Nat) :
    rci_body g 24 s₁ =
      (match read_u8 s₁ with
      | .error e => .error e
      | .ok (m, s₂) => .ok (.integer m, s₂)) := rfl

theorem rci_body_at25 (g : List Nat → Except CborError (Ipld × List Nat)) (s₁ : List Nat) :
    rci_body g 25 s₁ =
      (match read_u16 s₁ with
      | .error e => .error e
      | .ok (m, s₂) => .ok (.integer m, s₂)) := rfl

theorem rci_body_at26 (g : List Nat → Except CborError (Ipld × List Nat)) (s₁ : List Nat) :
    rci_body g 26 s₁ =
      (match read_u32 s₁ with
      | .error e => .error e
      | .ok (m, s₂) => .ok (.integer m, s₂)) := rfl

theorem rci_body_at27 (g : List Nat → Except CborError (Ipld × List Nat)) (s₁ : List Nat) :
    rci_body g 27 s₁ =
      (match read_u64 s₁ with
      | .error e => .error e
      | .ok (m, s₂) => .ok (.integer m, s₂)) := rfl

theorem rci_body_range32 (g : List Nat → Except CborError (Ipld × List Nat)) (b : Nat) (s₁ : List Nat)
    (h1 : 32 ≤ b) (h2 : b ≤ 55) :
    rci_body g b s₁ =
      .ok (.integer (-1 - ((b - 32 : Nat) : Int)), s₁) := by
  rw [rci_body]
  rw [if_neg (by omega)]
  rw [if_neg (by omega)]
  rw [if_neg (by omega)]
  rw [if_neg (by omega)]
  rw [if_neg (by omega)]
  rw [if_pos (by omega)]

theorem rci_body_at56 (g : List Nat → Except CborError (Ipld × List Nat)) (s₁ : List Nat) :
    rci_body g 56 s₁ =
      (match read_u8 s₁ with
      | .error e => .error e
      | .ok (m, s₂) => .ok (.integer (-1 - (m : Int)), s₂)) := rfl

theorem rci_body_at57 (g : List Nat → Except CborError (Ipld × List Nat)) (s₁ : List Nat) :
    rci_body g 57 s₁ =
      (match read_u16 s₁ with
      | .error e => .error e
      | .ok (m, s₂) => .ok (.integer (-1 - (m : Int)), s₂)) := rfl

theorem rci_body_at58 (g : List Nat → Except CborError (Ipld × List Nat)) (s₁ : List Nat) :
    rci_body g 58 s₁ =
      (match read_u32 s₁ with
      | .error e => .error e
      | .ok (m, s₂) => .ok (.integer (-1 - (m : Int)), s₂)) := rfl

theorem rci_body_at59 (g : List Nat → Except CborError (Ipld × List Nat)) (s₁ : List Nat) :
    rci_body g 59 s₁ =
      (match read_u64 s₁ with
      | .error e => .error e
      | .ok (m, s₂) => .ok (.integer (-1 - (m : Int)), s₂)) := rfl

theorem rci_body_range64 (g : List Nat → Except CborError (Ipld × List Nat)) (b : Nat) (s₁ : List Nat)
    (h1 : 64 ≤ b) (h2 : b ≤ 87) :
    rci_body g b s₁ =
      (let p := read_bytes (b - 64) s₁
      .ok (.bytes p.1, p.2)) := by
  rw [rci_body]
  rw [if_neg (by omega)]
  rw [if_neg (by omega)]
  rw [if_neg (by omega)]
  rw [if_neg (by omega)]
  rw [if_neg (by omega)]
  rw [if_neg (by omega)]
  rw [if_neg (by omega)]
  rw [if_neg (by omega)]
  rw [if_neg (by omega)]
  rw [if_neg (by omega)]
  rw [if_pos (by omega)]

theorem rci_body_at88 (g : List Nat → Except CborError (Ipld × List Nat)) (s₁ : List Nat) :
    rci_body g 88 s₁ =
      (match read_u8 s₁ with
      | .error e => .error e
      | .ok (len, s₂) =>
        let p := read_bytes len s₂
        .ok (.bytes p.1, p.2)) := rfl

theorem rci_body_at89 (g : List Nat → Except CborError (Ipld × List Nat)) (s₁ : List Nat) :
    rci_body g 89 s₁ =
      (match read_u16 s₁ with
      | .error e => .error e
      | .ok (len, s₂) =>
        let p := read_bytes len s₂
        .ok (.bytes p.1, p.2)) := rfl

theorem rci_body_at90 (g : List Nat → Except CborError (Ipld × List Nat)) (s₁ : List Nat) :
    rci_body g 90 s₁ =
      (match read_u32 s₁ with
      | .error e => .error e
      | .ok (len, s₂) =>
        let p := read_bytes len s₂
        .ok (.bytes p.1, p.2)) := rfl

theorem rci_body_at91 (g : List Nat → Except CborError (Ipld × List Nat)) (s₁ : List Nat) :
    rci_body g 91 s₁ =
      (match read_u64 s₁ with
      | .error e => .error e
      | .ok (len, s₂) =>
        if len > usizeMax then .error .lengthOutOfRange
        else
          let p := read_bytes len s₂
          .ok (.bytes p.1, p.2)) := rfl

theorem rci_body_range96 (g : List Nat → Except CborError (Ipld × List Nat)) (b : Nat) (s₁ : List Nat)
    (h1 : 96 ≤ b) (h2 : b ≤ 119) :
    rci_body g b s₁ =
      (match read_str (b - 96) s₁ with
      | .error e => .error e
      | .ok (str, s₂) => .ok (.str str, s₂)) := by
  rw [rci_body]
  rw [if_neg (by omega)]
  rw [if_neg (by omega)]
  rw [if_neg (by omega)]
  rw [if_neg (by omega)]
  rw [if_neg (by omega)]
  rw [if_neg (by omega)]
  rw [if_neg (by omega)]
  rw [if_neg (by omega)]
  rw [if_neg (by omega)]
  rw [if_neg (by omega)]
  rw [if_neg (by omega)]
  rw [if_neg (by omega)]
  rw [if_neg (by omega)]
  rw [if_neg (by omega)]
  rw [if_neg (by omega)]
  rw [if_pos (by omega)]

theorem rci_body_at120 (g : List Nat → Except CborError (Ipld × List Nat)) (s₁ : List Nat) :
    rci_body g 120 s₁ =
      (match read_u8 s₁ with
      | .error e => .error e
      | .ok (len, s₂) =>
        match read_str len s₂ with
        | .error e => .error e
        | .ok (str, s₃) => .ok (.str str, s₃)) := rfl

theorem rci_body_at121 (g : List Nat → Except CborError (Ipld × List Nat)) (s₁ : List Nat) :
    rci_body g 121 s₁ =
      (match read_u16 s₁ with
      | .error e => .error e
      | .ok (len, s₂) =>
        match read_str len s₂ with
        | .error e => .error e
        | .ok (str, s₃) => .ok (.str str, s₃)) := rfl

theorem rci_body_at122 (g : List Nat → Except CborError (Ipld × List Nat)) (s₁ : List Nat) :
    rci_body g 122 s₁ =
      (match read_u32 s₁ with
      | .error e => .error e
      | .ok (len, s₂) =>
        match read_str len s₂ with
        | .error e => .error e
        | .ok (str, s₃) => .ok (.str str, s₃)) := rfl

theorem rci_body_at123 (g : List Nat → Except CborError (Ipld × List Nat)) (s₁ : List Nat) :
    rci_body g 123 s₁ =
      (match read_u64 s₁ with
      | .error e => .error e
      | .ok (len, s₂) =>
        if len > usizeMax then .error .lengthOutOfRange
        else
          match read_str len s₂ with
        | .error e => .error e
        | .ok (str, s₃) => .ok (.str str, s₃)) := rfl

theorem rci_body_range128 (g : List Nat → Except CborError (Ipld × List Nat)) (b : Nat) (s₁ : List Nat)
    (h1 : 128 ≤ b) (h2 : b ≤ 151) :
    rci_body g b s₁ =
      (match read_list g (b - 128) s₁ with
      | .error e => .error e
      | .ok (l, s₂) => .ok (.list l, s₂)) := by
  rw [rci_body]
  rw [if_neg (by omega)]
  rw [if_neg (by omega)]
  rw [if_neg (by omega)]
  rw [if_neg (by omega)]
  rw [if_neg (by omega)]
  rw [if_neg (by omega)]
  rw [if_neg (by omega)]
  rw [if_neg (by omega)]
  rw [if_neg (by omega)]
  rw [if_neg (by omega)]
  rw [if_neg (by omega)]
  rw [if_neg (by omega)]
  rw [if_neg (by omega)]
  rw [if_neg (by omega)]
  rw [if_neg (by omega)]
  rw [if_neg (by omega)]
  rw [if_neg (by omega)]
  rw [if_neg (by omega)]
  rw [if_neg (by omega)]
  rw [if_neg (by omega)]
  rw [if_pos (by omega)]

theorem rci_body_at152 (g : List Nat → Except CborError (Ipld × List Nat)) (s₁ : List Nat) :
    rci_body g 152 s₁ =
      (match read_u8 s₁ with
      | .error e => .error e
      | .ok (len, s₂) =>
        match read_list g len s₂ with
        | .error e => .error e
        | .ok (l, s₃) => .ok (.list l, s₃)) := rfl

theorem rci_body_at153 (g : List Nat → Except CborError (Ipld × List Nat)) (s₁ : List Nat) :
    rci_body g 153 s₁ =
      (match read_u16 s₁ with
      | .error e => .error e
      | .ok (len, s₂) =>
        match read_list g len s₂ with
        | .error e => .error e
        | .ok (l, s₃) => .ok (.list l, s₃)) := rfl

theorem rci_body_at154 (g : List Nat → Except CborError (Ipld × List Nat)) (s₁ : List Nat) :
    rci_body g 154 s₁ =
      (match read_u32 s₁ with
      | .error e => .error e
      | .ok (len, s₂) =>
        match read_list g len s₂ with
        | .error e => .error e
        | .ok (l, s₃) => .ok (.list l, s₃)) := rfl

theorem rci_body_at155 (g : List Nat → Except CborError (Ipld × List Nat)) (s₁ : List Nat) :
    rci_body g 155 s₁ =
      (match read_u64 s₁ with
      | .error e => .error e
      | .ok (len, s₂) =>
        if len > usizeMax then .error .lengthOutOfRange
        else
          match read_list g len s₂ with
        | .error e => .error e
        | .ok (l, s₃) => .ok (.list l, s₃)) := rfl

theorem rci_body_range160 (g : List Nat → Except CborError (Ipld × List Nat)) (b : Nat) (s₁ : List Nat)
    (h1 : 160 ≤ b) (h2 : b ≤ 183) :
    rci_body g b s₁ =
      (match read_map g (b - 160) [] s₁ with
      | .error e => .error e
      | .ok (m, s₂) => .ok (.map m, s₂)) := by
  rw [rci_body]
  rw [if_neg (by omega)]
  rw [if_neg (by omega)]
  rw [if_neg (by omega)]
  rw [if_neg (by omega)]
  rw [if_neg (by omega)]
  rw [if_neg (by omega)]
  rw [if_neg (by omega)]
  rw [if_neg (by omega)]
  rw [if_neg (by omega)]
  rw [if_neg (by omega)]
  rw [if_neg (by omega)]
  rw [if_neg (by omega)]
  rw [if_neg (by omega)]
  rw [if_neg (by omega)]
  rw [if_neg (by omega)]
  rw [if_neg (by omega)]
  rw [if_neg (by omega)]
  rw [if_neg (by omega)]
  rw [if_neg (by omega)]
  rw [if_neg (by omega)]
  rw [if_neg (by omega)]
  rw [if_neg (by omega)]
  rw [if_neg (by omega)]
  rw [if_neg (by omega)]
  rw [if_neg (by omega)]
  rw [if_pos (by omega)]

theorem rci_body_at184 (g : List Nat → Except CborError (Ipld × List Nat)) (s₁ : List Nat) :
    rci_body g 184 s₁ =
      (match read_u8 s₁ with
      | .error e => .error e
      | .ok (len, s₂) =>
        match read_map g len [] s₂ with
        | .error e => .error e
        | .ok (m, s₃) => .ok (.map m, s₃)) := rfl

theorem rci_body_at185 (g : List Nat → Except CborError (Ipld × List Nat)) (s₁ : List Nat) :
    rci_body g 185 s₁ =
      (match read_u16 s₁ with
      | .error e => .error e
      | .ok (len, s₂) =>
        match read_map g len [] s₂ with
        | .error e => .error e
        | .ok (m, s₃) => .ok (.map m, s₃)) := rfl

theorem rci_body_at186 (g : List Nat → Except CborError (Ipld × List Nat)) (s₁ : List Nat) :
    rci_body g 186 s₁ =
      (match read_u32 s₁ with
      | .error e => .error e
      | .ok (len, s₂) =>
        match read_map g len [] s₂ with
        | .error e => .error e
        | .ok (m, s₃) => .ok (.map m, s₃)) := rfl

theorem rci_body_at187 (g : List Nat → Except CborError (Ipld × List Nat)) (s₁ : List Nat) :
    rci_body g 187 s₁ =
      (match read_u64 s₁ with
      | .error e => .error e
      | .ok (len, s₂) =>
        if len > usizeMax then .error .lengthOutOfRange
        else
          match read_map g len [] s₂ with
        | .error e => .error e
        | .ok (m, s₃) => .ok (.map m, s₃)) := rfl

theorem rci_body_at216 (g : List Nat → Except CborError (Ipld × List Nat)) (s₁ : List Nat) :
    rci_body g 216 s₁ =
      (match read_link s₁ with
      | .error e => .error e
      | .ok (c, s₂) => .ok (.link c, s₂)) := rfl

theorem rci_body_at244 (g : List Nat → Except CborError (Ipld × List Nat)) (s₁ : List Nat) :
    rci_body g 244 s₁ =
      .ok (.bool false, s₁) := rfl

theorem rci_body_at245 (g : List Nat → Except CborError (Ipld × List Nat)) (s₁ : List Nat) :
    rci_body g 245 s₁ =
      .ok (.bool true, s₁) := rfl

theorem rci_body_at246 (g : List Nat → Except CborError (Ipld × List Nat)) (s₁ : List Nat) :
    rci_body g 246 s₁ =
      .ok (.null, s₁) := rfl

theorem rci_body_at247 (g : List Nat → Except CborError (Ipld × List Nat)) (s₁ : List Nat) :
    rci_body g 247 s₁ =
      .ok (.null, s₁) := rfl

theorem rci_body_at250 (g : List Nat → Except CborError (Ipld × List Nat)) (s₁ : List Nat) :
    rci_body g 250 s₁ =
      (match read_f32 s₁ with
      | .error e => .error e
      | .ok (bits, s₂) => .ok (.float (.ofF32 bits), s₂)) := rfl

theorem rci_body_at251 (g : List Nat → Except CborError (Ipld × List Nat)) (s₁ : List Nat) :
    rci_body g 251 s₁ =
      (match read_f64 s₁ with
      | .error e => .error e
      | .ok (bits, s₂) => .ok (.float (.ofF64 bits), s₂)) := rfl

theorem read_list_ext {α : Type} {f g : List Nat → Except CborError (α × List Nat)}
    (hf : ∀ s v r, f s = .ok (v, r) → r.length < s.length) :
    ∀ (n : Nat) (s : List Nat), (∀ t, t.length ≤ s.length → f t = g t) →
      read_list f n s = read_list g n s := by
  intro n
  induction n with
  | zero => intro s hag; rfl
  | succ n ih =>
    intro s hag
    rw [read_list, read_list, ← hag s (le_refl _)]
    cases hfs : f s with
    | error e => rfl
    | ok p =>
      obtain ⟨v, s₁⟩ := p
      have hlt := hf _ _ _ hfs
      dsimp only
      rw [ih s₁ (fun t ht => hag t (by omega))]

theorem read_map_ext {α : Type} {f g : List Nat → Except CborError (α × List Nat)}
    (hf : ∀ s v r, f s = .ok (v, r) → r.length < s.length) :
    ∀ (n : Nat) (acc : List (List Nat × α)) (s : List Nat),
      (∀ t, t.length ≤ s.length → f t = g t) →
      read_map f n acc s = read_map g n acc s := by
  intro n
  induction n with
  | zero => intro acc s hag; rfl
  | succ n ih =>
    intro acc s hag
    rw [read_map, read_map]
    cases hks : read_cbor_string s with
    | error e => rfl
    | ok p =>
      obtain ⟨k, s₁⟩ := p
      have hk := len_read_cbor_string hks
      dsimp only
      rw [← hag s₁ (by omega)]
      cases hfs : f s₁ with
      | error e => rfl
      | ok q =>
        obtain ⟨v, s₂⟩ := q
        have hlt := hf _ _ _ hfs
        dsimp only
        rw [ih (insertKV k v acc) s₂ (fun t ht => hag t (by omega))]

set_option maxHeartbeats 2000000 in
theorem rci_body_ext {g g2 : List Nat → Except CborError (Ipld × List Nat)}
    (hg : ∀ s v r, g s = .ok (v, r) → r.length < s.length)
    (b : Nat) (s₁ : List Nat)
    (hag : ∀ t, t.length ≤ s₁.length → g t = g2 t) :
    rci_body g b s₁ = rci_body g2 b s₁ := by
  by_cases c1 : b ≤ 23
  · rw [rci_body_range0 g b s₁ c1, rci_body_range0 g2 b s₁ c1]
  by_cases c2 : b = 24
  · subst c2
    rw [rci_body_at24 g s₁, rci_body_at24 g2 s₁]
  by_cases c3 : b = 25
  · subst c3
    rw [rci_body_at25 g s₁, rci_body_at25 g2 s₁]
  by_cases c4 : b = 26
  · subst c4
    rw [rci_body_at26 g s₁, rci_body_at26 g2 s₁]
  by_cases c5 : b = 27
  · subst c5
    rw [rci_body_at27 g s₁, rci_body_at27 g2 s₁]
  by_cases c6 : 32 ≤ b ∧ b ≤ 55
  · obtain ⟨ha, hb⟩ := c6
    rw [rci_body_range32 g b s₁ ha hb, rci_body_range32 g2 b s₁ ha hb]
  by_cases c7 : b = 56
  · subst c7
    rw [rci_body_at56 g s₁, rci_body_at56 g2 s₁]
  by_cases c8 : b = 57
  · subst c8
    rw [rci_body_at57 g s₁, rci_body_at57 g2 s₁]
  by_cases c9 : b = 58
  · subst c9
    rw [rci_body_at58 g s₁, rci_body_at58 g2 s₁]
  by_cases c10 : b = 59
  · subst c10
    rw [rci_body_at59 g s₁, rci_body_at59 g2 s₁]
  by_cases c11 : 64 ≤ b ∧ b ≤ 87
  · obtain ⟨ha, hb⟩ := c11
    rw [rci_body_range64 g b s₁ ha hb, rci_body_range64 g2 b s₁ ha hb]
  by_cases c12 : b = 88
  · subst c12
    rw [rci_body_at88 g s₁, rci_body_at88 g2 s₁]
  by_cases c13 : b = 89
  · subst c13
    rw [rci_body_at89 g s₁, rci_body_at89 g2 s₁]
  by_cases c14 : b = 90
  · subst c14
    rw [rci_body_at90 g s₁, rci_body_at90 g2 s₁]
  by_cases c15 : b = 91
  · subst c15
    rw [rci_body_at91 g s₁, rci_body_at91 g2 s₁]
  by_cases c16 : 96 ≤ b ∧ b ≤ 119
  · obtain ⟨ha, hb⟩ := c16
    rw [rci_body_range96 g b s₁ ha hb, rci_body_range96 g2 b s₁ ha hb]
  by_cases c17 : b = 120
  · subst c17
    rw [rci_body_at120 g s₁, rci_body_at120 g2 s₁]
  by_cases c18 : b = 121
  · subst c18
    rw [rci_body_at121 g s₁, rci_body_at121 g2 s₁]
  by_cases c19 : b = 122
  · subst c19
    rw [rci_body_at122 g s₁, rci_body_at122 g2 s₁]
  by_cases c20 : b = 123
  · subst c20
    rw [rci_body_at123 g s₁, rci_body_at123 g2 s₁]
  by_cases c21 : 128 ≤ b ∧ b ≤ 151
  · obtain ⟨ha, hb⟩ := c21
    rw [rci_body_range128 g b s₁ ha hb, rci_body_range128 g2 b s₁ ha hb]
    rw [read_list_ext hg (b - 128) s₁ (fun t ht => hag t ht)]
  by_cases c22 : b = 152
  · subst c22
    rw [rci_body_at152 g s₁, rci_body_at152 g2 s₁]
    cases hu : read_u8 s₁ with
    | error e => rfl
    | ok p =>
      obtain ⟨len, s₂⟩ := p
      have e1 := len_read_u8 hu
      dsimp only
      rw [read_list_ext hg len s₂ (fun t ht => hag t (by omega))]
  by_cases c23 : b = 153
  · subst c23
    rw [rci_body_at153 g s₁, rci_body_at153 g2 s₁]
    cases hu : read_u16 s₁ with
    | error e => rfl
    | ok p =>
      obtain ⟨len, s₂⟩ := p
      have e1 := len_read_u16 hu
      dsimp only
      rw [read_list_ext hg len s₂ (fun t ht => hag t (by omega))]
  by_cases c24 : b = 154
  · subst c24
    rw [rci_body_at154 g s₁, rci_body_at154 g2 s₁]
    cases hu : read_u32 s₁ with
    | error e => rfl
    | ok p =>
      obtain ⟨len, s₂⟩ := p
      have e1 := len_read_u32 hu
      dsimp only
      rw [read_list_ext hg len s₂ (fun t ht => hag t (by omega))]
  by_cases c25 : b = 155
  · subst c25
    rw [rci_body_at155 g s₁, rci_body_at155 g2 s₁]
    cases hu : read_u64 s₁ with
    | error e => rfl
    | ok p =>
      obtain ⟨len, s₂⟩ := p
      have e1 := len_read_u64 hu
      dsimp only
      by_cases hl : len > usizeMax
      · rw [if_pos hl, if_pos hl]
      · rw [if_neg hl, if_neg hl]
        rw [read_list_ext hg len s₂ (fun t ht => hag t (by omega))]
  by_cases c26 : 160 ≤ b ∧ b ≤ 183
  · obtain ⟨ha, hb⟩ := c26
    rw [rci_body_range160 g b s₁ ha hb, rci_body_range160 g2 b s₁ ha hb]
    rw [read_map_ext hg (b - 160) [] s₁ (fun t ht => hag t ht)]
  by_cases c27 : b = 184
  · subst c27
    rw [rci_body_at184 g s₁, rci_body_at184 g2 s₁]
    cases hu : read_u8 s₁ with
    | error e => rfl
    | ok p =>
      obtain ⟨len, s₂⟩ := p
      have e1 := len_read_u8 hu
      dsimp only
      rw [read_map_ext hg len [] s₂ (fun t ht => hag t (by omega))]
  by_cases c28 : b = 185
  · subst c28
    rw [rci_body_at185 g s₁, rci_body_at185 g2 s₁]
    cases hu : read_u16 s₁ with
    | error e => rfl
    | ok p =>
      obtain ⟨len, s₂⟩ := p
      have e1 := len_read_u16 hu
      dsimp only
      rw [read_map_ext hg len [] s₂ (fun t ht => hag t (by omega))]
  by_cases c29 : b = 186
  · subst c29
    rw [rci_body_at186 g s₁, rci_body_at186 g2 s₁]
    cases hu : read_u32 s₁ with
    | error e => rfl
    | ok p =>
      obtain ⟨len, s₂⟩ := p
      have e1 := len_read_u32 hu
      dsimp only
      rw [read_map_ext hg len [] s₂ (fun t ht => hag t (by omega))]
  by_cases c30 : b = 187
  · subst c30
    rw [rci_body_at187 g s₁, rci_body_at187 g2 s₁]
    cases hu : read_u64 s₁ with
    | error e => rfl
    | ok p =>
      obtain ⟨len, s₂⟩ := p
      have e1 := len_read_u64 hu
      dsimp only
      by_cases hl : len > usizeMax
      · rw [if_pos hl, if_pos hl]
      · rw [if_neg hl, if_neg hl]
        rw [read_map_ext hg len [] s₂ (fun t ht => hag t (by omega))]
  by_cases c31 : b = 216
  · subst c31
    rw [rci_body_at216 g s₁, rci_body_at216 g2 s₁]
  by_cases c32 : b = 244
  · subst c32
    rw [rci_body_at244 g s₁, rci_body_at244 g2 s₁]
  by_cases c33 : b = 245
  · subst c33
    rw [rci_body_at245 g s₁, rci_body_at245 g2 s₁]
  by_cases c34 : b = 246
  · subst c34
    rw [rci_body_at246 g s₁, rci_body_at246 g2 s₁]
  by_cases c35 : b = 247
  · subst c35
    rw [rci_body_at247 g s₁, rci_body_at247 g2 s₁]
  by_cases c36 : b = 250
  · subst c36
    rw [rci_body_at250 g s₁, rci_body_at250 g2 s₁]
  by_cases c37 : b = 251
  · subst c37
    rw [rci_body_at251 g s₁, rci_body_at251 g2 s₁]
  rw [rci_body, rci_body]
  repeat rw [if_neg (by omega)]

theorem read_cbor_ipld_fuel_irrel :
    ∀ (f g : Nat) (s : List Nat), s.length < f → s.length < g →
      read_cbor_ipld f s = read_cbor_ipld g s := by
  intro f
  induction f using Nat.strong_induction_on with
  | _ f ih =>
    intro g s h1 h2
    cases f with
    | zero => exact absurd h1 (Nat.not_lt_zero _)
    | succ f₀ =>
      cases g with
      | zero => exact absurd h2 (Nat.not_lt_zero _)
      | succ g₀ =>
        rw [read_cbor_ipld, read_cbor_ipld]
        cases hu : read_u8 s with
        | error e => rfl
        | ok p =>
          obtain ⟨major, s₁⟩ := p
          have e1 := len_read_u8 hu
          dsimp only
          exact rci_body_ext (fun t v r ht => len_read_cbor_ipld f₀ t v r ht) major s₁
            (fun t ht => ih f₀ (by omega) g₀ t (by omega) (by omega))

theorem keyLt_irrefl : ∀ a : List Nat, keyLt a a = false := by
  intro a
  induction a with
  | nil => rfl
  | cons x t ih => simp [keyLt, ih]

theorem keyLt_trans : ∀ a b c : List Nat,
    keyLt a b = true → keyLt b c = true → keyLt a c = true := by
  intro a
  induction a with
  | nil =>
    intro b c hab hbc
    cases b with
    | nil => simp [keyLt] at hab
    | cons y bt =>
      cases c with
      | nil => simp [keyLt] at hbc
      | cons z ct => rfl
  | cons x t ih =>
    intro b c hab hbc
    cases b with
    | nil => simp [keyLt] at hab
    | cons y bt =>
      cases c with
      | nil => simp [keyLt] at hbc
      | cons z ct =>
        rw [keyLt] at hab hbc ⊢
        by_cases h1 : x < y
        · by_cases h2 : y < z
          · rw [if_pos (by omega)]
          · rw [if_neg h2] at hbc
            by_cases h3 : z < y
            · rw [if_pos h3] at hbc; simp at hbc
            · rw [if_pos (by omega)]
        · rw [if_neg h1] at hab
          by_cases h4 : y < x
          · rw [if_pos h4] at hab; simp at hab
          · have hxy : x = y := by omega
            subst hxy
            rw [if_neg (by omega)] at hab
            by_cases h2 : x < z
            · rw [if_pos h2]
            · rw [if_neg h2] at hbc ⊢
              by_cases h3 : z < x
              · rw [if_pos h3] at hbc; simp at hbc
              · rw [if_neg h3] at hbc ⊢
                exact ih bt ct hab hbc

theorem keyLt_eq_of_not : ∀ a b : List Nat,
    keyLt a b = false → keyLt b a = false → a = b := by
  intro a
  induction a with
  | nil =>
    intro b hab hba
    cases b with
    | nil => rfl
    | cons y bt => simp [keyLt] at hab
  | cons x t ih =>
    intro b hab hba
    cases b with
    | nil => simp [keyLt] at hba
    | cons y bt =>
      rw [keyLt] at hab hba
      by_cases h1 : x < y
      · rw [if_pos h1] at hab; simp at hab
      · rw [if_neg h1] at hab
        by_cases h2 : y < x
        · rw [if_pos h2] at hba; simp at hba
        · rw [if_neg h2] at hab
          have hxy : x = y := by omega
          subst hxy
          rw [if_neg (by omega), if_neg (by omega)] at hba
          rw [ih bt hab hba]

theorem mem_insertKV {α : Type} {k : List Nat} {v : α} :
    ∀ {m : List (List Nat × α)} {x}, x ∈ insertKV k v m → x = (k, v) ∨ x ∈ m := by
  intro m
  induction m with
  | nil => intro x hx; simp [insertKV] at hx; simp [hx]
  | cons p t ih =>
    intro x hx
    obtain ⟨k', v'⟩ := p
    rw [insertKV] at hx
    split_ifs at hx
    · rcases List.mem_cons.mp hx with h | h
      · simp [h]
      · simp [List.mem_cons.mp h]
    · rcases List.mem_cons.mp hx with h | h
      · simp [h]
      · rcases ih h with h2 | h2
        · simp [h2]
        · simp [h2]
    · rcases List.mem_cons.mp hx with h | h
      · simp [h]
      · simp [h]

theorem insertKV_sorted {α : Type} {k : List Nat} {v : α} :
    ∀ {m : List (List Nat × α)}, sortedKeys m → sortedKeys (insertKV k v m) := by
  intro m
  induction m with
  | nil => intro _; simp [insertKV, sortedKeys]
  | cons p t ih =>
    intro hs
    obtain ⟨k', v'⟩ := p
    rw [sortedKeys, List.pairwise_cons] at hs
    obtain ⟨hhead, htail⟩ := hs
    rw [insertKV]
    split_ifs with h1 h2
    · rw [sortedKeys, List.pairwise_cons]
      refine ⟨?_, ?_⟩
      · intro x hx
        rcases List.mem_cons.mp hx with h | h
        · rw [h]; exact h1
        · exact keyLt_trans _ _ _ h1 (hhead x h)
      · rw [List.pairwise_cons]
        exact ⟨hhead, htail⟩
    · rw [sortedKeys, List.pairwise_cons]
      refine ⟨?_, ?_⟩
      · intro x hx
        rcases mem_insertKV hx with h | h
        · rw [h]; exact h2
        · exact hhead x h
      · exact ih htail
    · rw [Bool.not_eq_true] at h1 h2
      have hk : k = k' := keyLt_eq_of_not _ _ h1 h2
      rw [sortedKeys, List.pairwise_cons]
      refine ⟨?_, htail⟩
      intro x hx
      rw [hk]
      exact hhead x hx

theorem length_insertKV {α : Type} (k : List Nat) (v : α) :
    ∀ (m : List (List Nat × α)), (insertKV k v m).length ≤ m.length + 1 := by
  intro m
  induction m with
  | nil => simp [insertKV]
  | cons p t ih =>
    obtain ⟨k', v'⟩ := p
    rw [insertKV]
    split_ifs
    · simp
    · simpa using Nat.succ_le_succ ih
    · simp

theorem lookup_insertKV {α : Type} (k2 k : List Nat) (v : α) :
    ∀ (m : List (List Nat × α)),
      lookupKV k2 (insertKV k v m) = if k2 = k then some v else lookupKV k2 m := by
  intro m
  induction m with
  | nil => simp [insertKV, lookupKV]
  | cons p t ih =>
    obtain ⟨k', v'⟩ := p
    rw [insertKV]
    by_cases h1 : keyLt k k' = true
    · rw [if_pos h1, lookupKV]
    · rw [if_neg h1]
      by_cases h2 : keyLt k' k = true
      · rw [if_pos h2, lookupKV]
        by_cases hk : k2 = k'
        · have hne : k2 ≠ k := by
            intro he
            rw [← he, hk] at h2
            rw [keyLt_irrefl] at h2
            exact absurd h2 (by simp)
          rw [if_pos hk, if_neg hne, lookupKV, if_pos hk]
        · rw [if_neg hk, ih]
          by_cases hk2 : k2 = k
          · rw [if_pos hk2, if_pos hk2]
          · rw [if_neg hk2, if_neg hk2, lookupKV, if_neg hk]
      · rw [if_neg h2]
        rw [Bool.not_eq_true] at h1 h2
        have hk : k = k' := keyLt_eq_of_not _ _ h1 h2
        subst hk
        rw [lookupKV]
        by_cases hk2 : k2 = k
        · rw [if_pos hk2, if_pos hk2]
        · rw [if_neg hk2, if_neg hk2, lookupKV, if_neg hk2]

theorem read_map_eq_entries {α : Type} (g : List Nat → Except CborError (α × List Nat)) :
    ∀ (n : Nat) (acc : List (List Nat × α)) (s : List Nat),
      read_map g n acc s = (read_entries g n s).map
        (fun p => (p.1.foldl (fun m q => insertKV q.1 q.2 m) acc, p.2)) := by
  intro n
  induction n with
  | zero => intro acc s; rfl
  | succ n ih =>
    intro acc s
    rw [read_map, read_entries]
    cases hk : read_cbor_string s with
    | error e => rfl
    | ok p =>
      obtain ⟨k, s₁⟩ := p
      dsimp only
      cases hv : g s₁ with
      | error e => rfl
      | ok q =>
        obtain ⟨v, s₂⟩ := q
        dsimp only
        rw [ih (insertKV k v acc) s₂]
        cases he : read_entries g n s₂ with
        | error e => rfl
        | ok r => rfl

theorem entries_length {α : Type} {g : List Nat → Except CborError (α × List Nat)} :
    ∀ {n : Nat} {s : List Nat} {es r}, read_entries g n s = .ok (es, r) → es.length = n := by
  intro n
  induction n with
  | zero => intro s es r h; simp [read_entries] at h; simp [← h.1]
  | succ n ih =>
    intro s es r h
    rw [read_entries] at h
    split at h
    · simp at h
    · split at h
      · simp at h
      · split at h
        · simp at h
        · next es2 r2 heq =>
          simp at h
          rw [← h.1]
          simp [ih heq]

theorem sorted_foldl_insert {α : Type} :
    ∀ (es : List (List Nat × α)) (m), sortedKeys m →
      sortedKeys (es.foldl (fun m q => insertKV q.1 q.2 m) m) := by
  intro es
  induction es with
  | nil => intro m hm; exact hm
  | cons q es ih =>
    intro m hm
    rw [List.foldl_cons]
    exact ih _ (insertKV_sorted hm)

theorem length_foldl_insert {α : Type} :
    ∀ (es : List (List Nat × α)) (m),
      (es.foldl (fun m q => insertKV q.1 q.2 m) m).length ≤ m.length + es.length := by
  intro es
  induction es with
  | nil => intro m; simp
  | cons q es ih =>
    intro m
    rw [List.foldl_cons]
    have h1 := ih (insertKV q.1 q.2 m)
    have h2 := length_insertKV q.1 q.2 m
    simp only [List.length_cons]
    omega

theorem lookup_foldl_insert {α : Type} (k2 : List Nat) :
    ∀ (es : List (List Nat × α)) (m),
      lookupKV k2 (es.foldl (fun m q => insertKV q.1 q.2 m) m) =
        es.foldl (fun acc q => if q.1 = k2 then some q.2 else acc) (lookupKV k2 m) := by
  intro es
  induction es with
  | nil => intro m; rfl
  | cons q es ih =>
    intro m
    obtain ⟨k1, v1⟩ := q
    rw [List.foldl_cons, List.foldl_cons, ih, lookup_insertKV]
    have : (if k2 = k1 then some v1 else lookupKV k2 m)
        = (if (k1, v1).1 = k2 then some (k1, v1).2 else lookupKV k2 m) := by
      by_cases h : k2 = k1
      · rw [if_pos h, if_pos (by simp [h])]
      · rw [if_neg h, if_neg (by simp; exact fun e => h e.symm)]
    rw [this]

theorem ladder_sound_int (f t n : Nat) (rest : List Nat) (hfit : tierFits t n) :
    read_cbor_ipld (f + 1) (ladderEnc 0 t n ++ rest) = .ok (.integer n, rest) := by
  rcases t with _ | _ | _ | _ | _ | t5
  · have h : n ≤ 23 := hfit
    rw [ladderEnc, read_cbor_ipld]
    simp only [List.cons_append, List.nil_append, read_u8]
    rw [rci_body_range0 _ _ _ (by omega)]
    simp
  · have h : n < 2 ^ 8 := hfit
    rw [ladderEnc, read_cbor_ipld]
    simp only [List.cons_append, List.nil_append, read_u8]
    rw [rci_body_at24]
    simp [read_u8]
  · have h : n < 2 ^ 16 := hfit
    rw [ladderEnc, read_cbor_ipld]
    simp only [List.cons_append, read_u8]
    rw [rci_body_at25, read_u16_beBytes rest h]
  · have h : n < 2 ^ 32 := hfit
    rw [ladderEnc, read_cbor_ipld]
    simp only [List.cons_append, read_u8]
    rw [rci_body_at26, read_u32_beBytes rest h]
  · have h : n < 2 ^ 64 := hfit
    rw [ladderEnc, read_cbor_ipld]
    simp only [List.cons_append, read_u8]
    rw [rci_body_at27, read_u64_beBytes rest h]
  · simp [tierFits] at hfit

theorem ladder_sound_negint (f t n : Nat) (rest : List Nat) (hfit : tierFits t n) :
    read_cbor_ipld (f + 1) (ladderEnc 32 t n ++ rest) = .ok (.integer (-1 - (n : Int)), rest) := by
  rcases t with _ | _ | _ | _ | _ | t5
  · have h : n ≤ 23 := hfit
    rw [ladderEnc, read_cbor_ipld]
    simp only [List.cons_append, List.nil_append, read_u8]
    rw [rci_body_range32 _ _ _ (by omega) (by omega)]
    simp [Nat.add_sub_cancel_left]
  · have h : n < 2 ^ 8 := hfit
    rw [ladderEnc, read_cbor_ipld]
    simp only [List.cons_append, List.nil_append, read_u8]
    rw [rci_body_at56]
    simp [read_u8]
  · have h : n < 2 ^ 16 := hfit
    rw [ladderEnc, read_cbor_ipld]
    simp only [List.cons_append, read_u8]
    rw [rci_body_at57, read_u16_beBytes rest h]
  · have h : n < 2 ^ 32 := hfit
    rw [ladderEnc, read_cbor_ipld]
    simp only [List.cons_append, read_u8]
    rw [rci_body_at58, read_u32_beBytes rest h]
  · have h : n < 2 ^ 64 := hfit
    rw [ladderEnc, read_cbor_ipld]
    simp only [List.cons_append, read_u8]
    rw [rci_body_at59, read_u64_beBytes rest h]
  · simp [tierFits] at hfit

theorem ladder_sound_bytes (f t n : Nat) (rest : List Nat) (hfit : tierFits t n) :
    read_cbor_ipld (f + 1) (ladderEnc 64 t n ++ rest)
      = .ok (.bytes (rest.take n), rest.drop n) := by
  rcases t with _ | _ | _ | _ | _ | t5
  · have h : n ≤ 23 := hfit
    rw [ladderEnc, read_cbor_ipld]
    simp only [List.cons_append, List.nil_append, read_u8]
    rw [rci_body_range64 _ _ _ (by omega) (by omega)]
    simp [read_bytes, read_n, Nat.add_sub_cancel_left]
  · have h : n < 2 ^ 8 := hfit
    rw [ladderEnc, read_cbor_ipld]
    simp only [List.cons_append, List.nil_append, read_u8]
    rw [rci_body_at88]
    simp [read_u8, read_bytes, read_n]
  · have h : n < 2 ^ 16 := hfit
    rw [ladderEnc, read_cbor_ipld]
    simp only [List.cons_append, read_u8]
    rw [rci_body_at89, read_u16_beBytes rest h]
    simp [read_bytes, read_n]
  · have h : n < 2 ^ 32 := hfit
    rw [ladderEnc, read_cbor_ipld]
    simp only [List.cons_append, read_u8]
    rw [rci_body_at90, read_u32_beBytes rest h]
    simp [read_bytes, read_n]
  · have h : n < 2 ^ 64 := hfit
    rw [ladderEnc, read_cbor_ipld]
    simp only [List.cons_append, read_u8]
    rw [rci_body_at91, read_u64_beBytes rest h]
    dsimp only
    rw [if_neg (by simp only [usizeMax]; omega)]
    simp [read_bytes, read_n]
  · simp [tierFits] at hfit

theorem ladder_sound_text (f t n : Nat) (rest : List Nat) (hfit : tierFits t n) :
    read_cbor_ipld (f + 1) (ladderEnc 96 t n ++ rest)
      = (match read_str n rest with
          | .error e => .error e
          | .ok (t2, s2) => .ok (.str t2, s2)) := by
  rcases t with _ | _ | _ | _ | _ | t5
  · have h : n ≤ 23 := hfit
    rw [ladderEnc, read_cbor_ipld]
    simp only [List.cons_append, List.nil_append, read_u8]
    rw [rci_body_range96 _ _ _ (by omega) (by omega)]
    simp [Nat.add_sub_cancel_left]
  · have h : n < 2 ^ 8 := hfit
    rw [ladderEnc, read_cbor_ipld]
    simp only [List.cons_append, List.nil_append, read_u8]
    rw [rci_body_at120]
    simp only [read_u8]
  · have h : n < 2 ^ 16 := hfit
    rw [ladderEnc, read_cbor_ipld]
    simp only [List.cons_append, read_u8]
    rw [rci_body_at121, read_u16_beBytes rest h]
  · have h : n < 2 ^ 32 := hfit
    rw [ladderEnc, read_cbor_ipld]
    simp only [List.cons_append, read_u8]
    rw [rci_body_at122, read_u32_beBytes rest h]
  · have h : n < 2 ^ 64 := hfit
    rw [ladderEnc, read_cbor_ipld]
    simp only [List.cons_append, read_u8]
    rw [rci_body_at123, read_u64_beBytes rest h]
    dsimp only
    rw [if_neg (by simp only [usizeMax]; omega)]
  · simp [tierFits] at hfit

theorem ladder_sound_list (f t n : Nat) (rest : List Nat) (hfit : tierFits t n) :
    read_cbor_ipld (f + 1) (ladderEnc 128 t n ++ rest)
      = (match read_list (read_cbor_ipld f) n rest with
          | .error e => .error e
          | .ok (l, s2) => .ok (.list l, s2)) := by
  rcases t with _ | _ | _ | _ | _ | t5
  · have h : n ≤ 23 := hfit
    rw [ladderEnc, read_cbor_ipld]
    simp only [List.cons_append, List.nil_append, read_u8]
    rw [rci_body_range128 _ _ _ (by omega) (by omega)]
    simp [Nat.add_sub_cancel_left]
  · have h : n < 2 ^ 8 := hfit
    rw [ladderEnc, read_cbor_ipld]
    simp only [List.cons_append, List.nil_append, read_u8]
    rw [rci_body_at152]
    simp only [read_u8]
  · have h : n < 2 ^ 16 := hfit
    rw [ladderEnc, read_cbor_ipld]
    simp only [List.cons_append, read_u8]
    rw [rci_body_at153, read_u16_beBytes rest h]
  · have h : n < 2 ^ 32 := hfit
    rw [ladderEnc, read_cbor_ipld]
    simp only [List.cons_append, read_u8]
    rw [rci_body_at154, read_u32_beBytes rest h]
  · have h : n < 2 ^ 64 := hfit
    rw [ladderEnc, read_cbor_ipld]
    simp only [List.cons_append, read_u8]
    rw [rci_body_at155, read_u64_beBytes rest h]
    dsimp only
    rw [if_neg (by simp only [usizeMax]; omega)]
  · simp [tierFits] at hfit

theorem ladder_sound_map (f t n : Nat) (rest : List Nat) (hfit : tierFits t n) :
    read_cbor_ipld (f + 1) (ladderEnc 160 t n ++ rest)
      = (match read_map (read_cbor_ipld f) n [] rest with
          | .error e => .error e
          | .ok (m, s2) => .ok (.map m, s2)) := by
  rcases t with _ | _ | _ | _ | _ | t5
  · have h : n ≤ 23 := hfit
    rw [ladderEnc, read_cbor_ipld]
    simp only [List.cons_append, List.nil_append, read_u8]
    rw [rci_body_range160 _ _ _ (by omega) (by omega)]
    simp [Nat.add_sub_cancel_left]
  · have h : n < 2 ^ 8 := hfit
    rw [ladderEnc, read_cbor_ipld]
    simp only [List.cons_append, List.nil_append, read_u8]
    rw [rci_body_at184]
    simp only [read_u8]
  · have h : n < 2 ^ 16 := hfit
    rw [ladderEnc, read_cbor_ipld]
    simp only [List.cons_append, read_u8]
    rw [rci_body_at185, read_u16_beBytes rest h]
  · have h : n < 2 ^ 32 := hfit
    rw [ladderEnc, read_cbor_ipld]
    simp only [List.cons_append, read_u8]
    rw [rci_body_at186, read_u32_beBytes rest h]
  · have h : n < 2 ^ 64 := hfit
    rw [ladderEnc, read_cbor_ipld]
    simp only [List.cons_append, read_u8]
    rw [rci_body_at187, read_u64_beBytes rest h]
    dsimp only
    rw [if_neg (by simp only [usizeMax]; omega)]
  · simp [tierFits] at hfit

/-! ## Claim theorems -/

/-- C5: For every numeric value or length and every ladder tier (immediate
low-5-bits, 1-byte, 2-byte, 4-byte, 8-byte big-endian) wide enough to hold
it, decoding the generic value from that tier's encoding produces the same
result as decoding it from any other tier's encoding of the same value
(canonical-form independence of reading), for each of the six
length/magnitude-carrying major types (0: unsigned int, 1: negative int,
2: byte string, 3: text string, 4: array, 5: map). -/
theorem claim_c5_tier_independence
    (base : Nat) (hbase : base ∈ ([0, 32, 64, 96, 128, 160] : List Nat))
    (t1 t2 n : Nat) (h1 : tierFits t1 n) (h2 : tierFits t2 n) (rest : List Nat) :
    decode_ipld (ladderEnc base t1 n ++ rest) = decode_ipld (ladderEnc base t2 n ++ rest) := by
  rw [decode_ipld, decode_ipld,
    read_cbor_ipld_fuel_irrel ((ladderEnc base t1 n ++ rest).length + 1)
      (((ladderEnc base t1 n ++ rest).length ⊔ (ladderEnc base t2 n ++ rest).length) + 1)
      _ (by omega) (by simp only [Nat.lt_succ_iff]; exact le_max_left _ _),
    read_cbor_ipld_fuel_irrel ((ladderEnc base t2 n ++ rest).length + 1)
      (((ladderEnc base t1 n ++ rest).length ⊔ (ladderEnc base t2 n ++ rest).length) + 1)
      _ (by omega) (by simp only [Nat.lt_succ_iff]; exact le_max_right _ _)]
  simp only [List.mem_cons, List.mem_singleton] at hbase
  rcases hbase with rfl | rfl | rfl | rfl | rfl | hbase
  · rw [ladder_sound_int _ t1 n rest h1, ladder_sound_int _ t2 n rest h2]
  · rw [ladder_sound_negint _ t1 n rest h1, ladder_sound_negint _ t2 n rest h2]
  · rw [ladder_sound_bytes _ t1 n rest h1, ladder_sound_bytes _ t2 n rest h2]
  · rw [ladder_sound_text _ t1 n rest h1, ladder_sound_text _ t2 n rest h2]
  · rw [ladder_sound_list _ t1 n rest h1, ladder_sound_list _ t2 n rest h2]
  · rcases hbase with rfl | h
    · rw [ladder_sound_map _ t1 n rest h1, ladder_sound_map _ t2 n rest h2]
    · simp at h

/-- Witness for C5: the value 5 decodes identically from its immediate
(tier 0) form `[0x05]` and its 8-byte (tier 4) form `[0x1b, 0,0,0,0,0,0,0,5]`. -/
theorem claim_c5_tier_independence_witness :
    decode_ipld (ladderEnc 0 0 5 ++ []) = decode_ipld (ladderEnc 0 4 5 ++ []) :=
  claim_c5_tier_independence 0 (by decide) 0 4 5
    (show (5 : Nat) ≤ 23 by decide) (show (5 : Nat) < 2 ^ 64 by decide) []

/-- C4: Decoding a major-type-1 item into the generic value computes
`Integer (-1 - magnitude)`; because the magnitude is below `2^64` and the
arithmetic is done in i128 (here: `Int`, exact since the result always
lies strictly inside the i128 range, as the first conjunct shows), the
combination never overflows.  Concretely: `0x00` decodes to Integer 0,
`0x18 0xFF` to Integer 255, and `0x3a 00 00 00 01` to Integer (-2). -/
theorem claim_c4_negative_integers :
    (∀ m rest, m < 2 ^ 64 →
      decode_ipld (0x3b :: (beBytes 8 m ++ rest)) = .ok (.integer (-1 - (m : Int)), rest)
        ∧ -(2 ^ 127) < -1 - (m : Int) ∧ -1 - (m : Int) < 2 ^ 127)
    ∧ decode_ipld [0x00] = .ok (.integer 0, [])
    ∧ decode_ipld [0x18, 0xFF] = .ok (.integer 255, [])
    ∧ decode_ipld [0x3a, 0x00, 0x00, 0x00, 0x01] = .ok (.integer (-2), []) := by
  refine ⟨?_, rfl, rfl, rfl⟩
  intro m rest hm
  refine ⟨?_, by omega, by omega⟩
  have h : (0x3b : Nat) :: (beBytes 8 m ++ rest) = ladderEnc 32 4 m ++ rest := by
    rw [ladderEnc]
    rfl
  rw [h, decode_ipld]
  have hl : (ladderEnc 32 4 m ++ rest).length = (ladderEnc 32 4 m ++ rest).length - 1 + 1 := by
    rw [ladderEnc]
    simp [length_beBytes]
  rw [hl]
  exact ladder_sound_negint _ 4 m rest hm

/-- Witness for C4 (magnitude 1 via the 8-byte tier): decoding
`0x3b 00 00 00 00 00 00 00 01` yields Integer (-2). -/
theorem claim_c4_negative_integers_witness :
    decode_ipld (0x3b :: (beBytes 8 1 ++ []))
        = .ok (.integer (-1 - ((1 : Nat) : Int)), [])
      ∧ -(2 ^ 127) < -1 - ((1 : Nat) : Int) ∧ -1 - ((1 : Nat) : Int) < 2 ^ 127 :=
  claim_c4_negative_integers.1 1 [] (by norm_num)

/-- C2 (code bug evidence): a byte-string item declaring a 5-byte payload
with only 2 bytes left decodes successfully to `Bytes [0xAA, 0xBB]`
(2 bytes) instead of failing with an I/O error, because `read_n` uses
`take(len).read_to_end`, which stops silently at EOF; likewise a 5-byte
text-string header with a 2-byte payload yields the truncated string
"hi".  The third conjunct isolates the culprit: `read_n` returns fewer
bytes than requested without error. -/
theorem claim_c2_short_payload_truncates :
    decode_ipld [0x58, 0x05, 0xAA, 0xBB] = .ok (.bytes [0xAA, 0xBB], [])
    ∧ decode_ipld [0x65, 0x68, 0x69] = .ok (.str [0x68, 0x69], [])
    ∧ read_n 5 [0xAA, 0xBB] = ([0xAA, 0xBB], []) :=
  ⟨rfl, rfl, rfl⟩

/-- C9: decoding a stream whose leading byte is 0xff fails with
UnexpectedCode for every decode target: bool, u8, u16, u32, u64, i8, i16,
i32, i64, f32, f64, String, Cid, Option-of-T, Vec-of-T,
BTreeMap-of-String-to-T, and the generic value. -/
theorem claim_c9_ff_unexpected_code (rest : List Nat)
    {α : Type} (f : List Nat → Except CborError (α × List Nat)) :
    read_cbor_bool (0xff :: rest) = .error .unexpectedCode
    ∧ read_cbor_u8 (0xff :: rest) = .error .unexpectedCode
    ∧ read_cbor_u16 (0xff :: rest) = .error .unexpectedCode
    ∧ read_cbor_u32 (0xff :: rest) = .error .unexpectedCode
    ∧ read_cbor_u64 (0xff :: rest) = .error .unexpectedCode
    ∧ read_cbor_i8 (0xff :: rest) = .error .unexpectedCode
    ∧ read_cbor_i16 (0xff :: rest) = .error .unexpectedCode
    ∧ read_cbor_i32 (0xff :: rest) = .error .unexpectedCode
    ∧ read_cbor_i64 (0xff :: rest) = .error .unexpectedCode
    ∧ read_cbor_f32 (0xff :: rest) = .error .unexpectedCode
    ∧ read_cbor_f64 (0xff :: rest) = .error .unexpectedCode
    ∧ read_cbor_string (0xff :: rest) = .error .unexpectedCode
    ∧ read_cbor_cid (0xff :: rest) = .error .unexpectedCode
    ∧ read_cbor_option f (0xff :: rest) = .error .unexpectedCode
    ∧ read_cbor_vec f (0xff :: rest) = .error .unexpectedCode
    ∧ read_cbor_map f (0xff :: rest) = .error .unexpectedCode
    ∧ decode_ipld (0xff :: rest) = .error .unexpectedCode :=
  ⟨rfl, rfl, rfl, rfl, rfl, rfl, rfl, rfl, rfl, rfl, rfl, rfl, rfl, rfl, rfl, rfl, rfl⟩

/-- C10: the i8 decoder's 0x38 form computes `-1 - (m as i8)` with a
wrapping narrowing cast: for every magnitude byte `m` the decode succeeds
with `-1 - u8_as_i8 m`; for `m ≥ 0x80` that value is the wrapped
`255 - m` (a non-negative number) instead of the CBOR value `-1 - m`,
so bytes `0x38 0xFF` decode to 0 and `0x38 0x80` to 127; the same
widest-tier wrapping recurs for i16's 0x39 form (`65535 - m` for
`m ≥ 0x8000`). -/
theorem claim_c10_signed_narrowing_wrap :
    (∀ m rest, read_cbor_i8 (0x38 :: m :: rest) = .ok (-1 - u8_as_i8 m, rest))
    ∧ (∀ m rest, 0x80 ≤ m → m < 0x100 →
        read_cbor_i8 (0x38 :: m :: rest) = .ok (((255 - m : Nat) : Int), rest))
    ∧ read_cbor_i8 [0x38, 0xFF] = .ok (0, [])
    ∧ read_cbor_i8 [0x38, 0x80] = .ok (127, [])
    ∧ (∀ m rest, 0x8000 ≤ m → m < 0x10000 →
        read_cbor_i16 (0x39 :: (beBytes 2 m ++ rest)) = .ok (((65535 - m : Nat) : Int), rest)) := by
  have base : ∀ m rest, read_cbor_i8 (0x38 :: m :: rest) = .ok (-1 - u8_as_i8 m, rest) := by
    intro m rest
    simp [read_cbor_i8, read_u8]
  refine ⟨base, ?_, rfl, rfl, ?_⟩
  · intro m rest h1 h2
    rw [base m rest]
    have hv : -1 - u8_as_i8 m = ((255 - m : Nat) : Int) := by
      rw [u8_as_i8, if_neg (by omega)]
      omega
    rw [hv]
  · intro m rest h1 h2
    have h2' : m < 2 ^ 16 := by omega
    simp only [read_cbor_i16, read_u8]
    norm_num
    rw [read_u16_beBytes rest h2']
    dsimp only
    have hv : -1 - u16_as_i16 m = ((65535 - m : Nat) : Int) := by
      rw [u16_as_i16, if_neg (by omega)]
      omega
    rw [hv]

/-- Witness for C10: magnitude byte 0x90 wraps to `255 - 0x90 = 111`, and
the 16-bit magnitude 0x8000 wraps to `65535 - 0x8000 = 32767`. -/
theorem claim_c10_signed_narrowing_wrap_witness :
    read_cbor_i8 (0x38 :: 0x90 :: []) = .ok (((255 - 0x90 : Nat) : Int), [])
    ∧ read_cbor_i16 (0x39 :: (beBytes 2 0x8000 ++ []))
        = .ok (((65535 - 0x8000 : Nat) : Int), []) :=
  ⟨claim_c10_signed_narrowing_wrap.2.1 0x90 [] (by norm_num) (by norm_num),
   claim_c10_signed_narrowing_wrap.2.2.2.2 0x8000 [] (by norm_num) (by norm_num)⟩

/-- C6: after the 0xd8 lead byte, link decoding fails with UnknownTag
whenever the tag-extension byte is not 42, or the byte-string header byte
is not 0x58; the accepted sequence 42, 0x58, length, CID-bytes hands the
CID bytes (`rest.take len`) to the CID parser.  The last two conjuncts tie
this to the Cid and generic-value decoders, whose only tagged form is the
0xd8 lead byte followed by `read_link`. -/
theorem claim_c6_link_tag_validation :
    (∀ tag rest, tag ≠ 42 → read_link (tag :: rest) = .error .unknownTag)
    ∧ (∀ ty rest, ty ≠ 0x58 → read_link (42 :: ty :: rest) = .error .unknownTag)
    ∧ (∀ len rest, read_link (42 :: 0x58 :: len :: rest)
        = (match cidTryFrom (rest.take len) with
           | .ok c => .ok (c, rest.drop len)
           | .error e => .error e))
    ∧ (∀ rest, read_cbor_cid (0xd8 :: rest) = read_link rest)
    ∧ (∀ fuel rest, read_cbor_ipld (fuel + 1) (0xd8 :: rest)
        = (match read_link rest with
           | .error e => .error e
           | .ok (c, s₂) => .ok (.link c, s₂))) := by
  refine ⟨?_, ?_, ?_, ?_, ?_⟩
  · intro tag rest h
    simp [read_link, read_u8, h]
  · intro ty rest h
    simp [read_link, read_u8, h]
  · intro len rest
    simp [read_link, read_u8, read_bytes, read_n]
  · intro rest
    simp [read_cbor_cid, read_u8]
  · intro fuel rest
    rw [read_cbor_ipld]
    simp only [read_u8]
    rw [rci_body_at216]

/-- Witness for C6: tag-extension byte 7 and byte-string header 0x40 are
rejected with UnknownTag; the accepted form parses the single CID byte. -/
theorem claim_c6_link_tag_validation_witness :
    read_link (7 :: []) = .error .unknownTag
    ∧ read_link (42 :: 0x40 :: []) = .error .unknownTag
    ∧ read_link (42 :: 0x58 :: 1 :: [9])
        = (match cidTryFrom ([(9 : Nat)].take 1) with
           | .ok c => .ok (c, [(9 : Nat)].drop 1)
           | .error e => .error e) :=
  ⟨claim_c6_link_tag_validation.1 7 [] (by norm_num),
   claim_c6_link_tag_validation.2.1 0x40 [] (by norm_num),
   claim_c6_link_tag_validation.2.2.1 1 [9]⟩

/-- C7: for every root CID whose block decodes successfully, `Dag::get`
with an empty path returns Some of exactly the root block's decoded
value, unchanged. -/
theorem claim_c7_empty_path (st : Store) (c : Cid) (v : Ipld)
    (h : read_ipld st c = .ok v) : dag_get st c [] = .ok (some v) := by
  rw [dag_get, h]
  rfl

/-- Witness for C7: a store holding one block `[0x05]` (Integer 5); the
empty path returns Integer 5. -/
theorem claim_c7_empty_path_witness :
    dag_get [(⟨[3]⟩, [0x05])] ⟨[3]⟩ [] = .ok (some (.integer 5)) :=
  claim_c7_empty_path [(⟨[3]⟩, [0x05])] ⟨[3]⟩ (.integer 5) rfl

/-- C1 counterexample: the claim says an out-of-range list index makes
`Dag::get` return an error distinct from "not found", but on a store whose
root block `[0x81, 0x07]` decodes to the one-element list `[7]`, the path
segment "1" (which parses as the out-of-range index 1) returns `Ok(None)`
— exactly the "not found" result — because `Ipld::get` yields `None` for
an out-of-range index and dag.rs maps `None` to `Ok(None)`. -/
theorem claim_c1_counterexample :
    decode_ipld [0x81, 0x07] = .ok (.list [.integer 7], [])
    ∧ parseUsize [0x31] = .ok 1
    ∧ dag_get [(⟨[9]⟩, [0x81, 0x07])] ⟨[9]⟩ [[0x31]] = .ok none :=
  ⟨rfl, rfl, rfl⟩

/-- C1 (amended): when `Dag::get` resolves a segment against a List, a
segment that fails to parse as a non-negative integer returns the parse
error; a segment that parses to an out-of-range index returns `Ok(None)`,
the same "not found" result as a missing map key. -/
theorem claim_c1_list_index_vs_map_key :
    (∀ (st : Store) (c : Cid) (l : List Ipld) (seg : List Nat)
        (rest : List (List Nat)) (i : Nat),
        read_ipld st c = .ok (.list l) → parseUsize seg = .ok i → l.length ≤ i →
        dag_get st c (seg :: rest) = .ok none)
    ∧ (∀ (st : Store) (c : Cid) (m : List (List Nat × Ipld)) (seg : List Nat)
        (rest : List (List Nat)),
        read_ipld st c = .ok (.map m) → lookupKV seg m = none →
        dag_get st c (seg :: rest) = .ok none)
    ∧ (∀ (st : Store) (c : Cid) (l : List Ipld) (seg : List Nat)
        (rest : List (List Nat)),
        read_ipld st c = .ok (.list l) → parseUsize seg = .error .parseInt →
        dag_get st c (seg :: rest) = .error .parseInt) := by
  refine ⟨?_, ?_, ?_⟩
  · intro st c l seg rest i h hp hlen
    rw [dag_get, h]
    try dsimp only
    rw [dag_get_loop]
    try dsimp only
    rw [hp]
    try dsimp only
    have hnone : ipldGetIndex (.list l) i = none := by
      simp [ipldGetIndex, List.get?_eq_none]
      exact hlen
    rw [hnone]
  · intro st c m seg rest h hlook
    rw [dag_get, h]
    try dsimp only
    rw [dag_get_loop]
    try dsimp only
    have hnone : ipldGetKey (.map m) seg = none := by
      simp [ipldGetKey, hlook]
    rw [hnone]
  · intro st c l seg rest h hp
    rw [dag_get, h]
    try dsimp only
    rw [dag_get_loop]
    try dsimp only
    rw [hp]

/-- Witness for C1 (amended): the one-element list block `[7]`: index "1"
is out of range and yields `Ok(None)`; the map block `{"a": 3}` with the
absent key "b" yields `Ok(None)`; the non-numeric segment "x" on the list
block yields the parse error. -/
theorem claim_c1_list_index_vs_map_key_witness :
    dag_get [(⟨[9]⟩, [0x81, 0x07])] ⟨[9]⟩ [[0x31]] = .ok none
    ∧ dag_get [(⟨[8]⟩, [0xa1, 0x61, 0x61, 0x03])] ⟨[8]⟩ [[0x62]] = .ok none
    ∧ dag_get [(⟨[9]⟩, [0x81, 0x07])] ⟨[9]⟩ [[0x78]] = .error .parseInt :=
  ⟨claim_c1_list_index_vs_map_key.1 _ _ [.integer 7] [0x31] [] 1 rfl rfl (by norm_num),
   claim_c1_list_index_vs_map_key.2.1 _ _ [([0x61], .integer 3)] [0x62] [] rfl rfl,
   claim_c1_list_index_vs_map_key.2.2 _ _ [.integer 7] [0x78] [] rfl rfl⟩

/-- C3: on the two-block store, `Dag::get` on the second block's CID with
path "root/0/child/a" returns `Some(Integer 3)`: the Link child found
under "child" is transparently followed into the first block without
consuming a path segment.  The first two conjuncts pin down what each
block decodes to. -/
theorem claim_c3_transparent_link_following :
    decode_ipld c3_block1 = .ok (.map [([0x61], .integer 3)], [])
    ∧ decode_ipld c3_block2
        = .ok (.map [([0x72, 0x6f, 0x6f, 0x74],
            .list [.map [([0x63, 0x68, 0x69, 0x6c, 0x64], .link ⟨[0x01]⟩)]])], [])
    ∧ dag_get c3_store ⟨[2]⟩
        [[0x72, 0x6f, 0x6f, 0x74], [0x30], [0x63, 0x68, 0x69, 0x6c, 0x64], [0x61]]
        = .ok (some (.integer 3)) :=
  ⟨rfl, rfl, rfl⟩

/-- C8: every map produced by the `read_map` decode loop (started, as in
all call sites, from the empty map) has strictly sorted keys (hence no
duplicates), at most the declared number of entries, and equals the left
fold of `BTreeMap::insert` over the decoded pair sequence, so a key
decoded more than once keeps the value decoded last (the fold in the last
conjunct returns the last matching value). -/
theorem claim_c8_map_sorted_last_wins {α : Type}
    (g : List Nat → Except CborError (α × List Nat))
    (n : Nat) (s : List Nat) (m : List (List Nat × α)) (r : List Nat)
    (h : read_map g n [] s = .ok (m, r)) :
    ∃ es, read_entries g n s = .ok (es, r)
      ∧ es.length = n
      ∧ m = es.foldl (fun m2 q => insertKV q.1 q.2 m2) []
      ∧ sortedKeys m
      ∧ m.length ≤ n
      ∧ ∀ k, lookupKV k m
          = es.foldl (fun acc q => if q.1 = k then some q.2 else acc) none := by
  rw [read_map_eq_entries] at h
  cases he : read_entries g n s with
  | error e => rw [he] at h; simp [Except.map] at h
  | ok p =>
    obtain ⟨es, r2⟩ := p
    rw [he] at h
    simp [Except.map] at h
    obtain ⟨hm, hr⟩ := h
    subst hr
    have hn := entries_length he
    refine ⟨es, rfl, hn, hm.symm, ?_, ?_, ?_⟩
    · rw [← hm]
      exact sorted_foldl_insert es [] (by simp [sortedKeys])
    · rw [← hm, ← hn]
      simpa using length_foldl_insert es []
    · intro k
      rw [← hm, lookup_foldl_insert k es []]
      rfl

/-- Witness for C8: the 2-pair stream encoding "a" ↦ 1 then "a" ↦ 2 (a
duplicate key): the resulting map is the single sorted entry "a" ↦ 2 —
the value decoded last wins. -/
theorem claim_c8_map_sorted_last_wins_witness :
    ∃ es, read_entries (read_cbor_ipld 1) 2 [0x61, 0x61, 0x01, 0x61, 0x61, 0x02]
        = .ok (es, [])
      ∧ es.length = 2
      ∧ [([0x61], Ipld.integer 2)] = es.foldl (fun m2 q => insertKV q.1 q.2 m2) []
      ∧ sortedKeys [([0x61], Ipld.integer 2)]
      ∧ ([([0x61], Ipld.integer 2)] : List (List Nat × Ipld)).length ≤ 2
      ∧ ∀ k, lookupKV k [([0x61], Ipld.integer 2)]
          = es.foldl (fun acc q => if q.1 = k then some q.2 else acc) none :=
  claim_c8_map_sorted_last_wins (read_cbor_ipld 1) 2
    [0x61, 0x61, 0x01, 0x61, 0x61, 0x02] [([0x61], Ipld.integer 2)] [] rfl

end Libipld
